import Mathlib

/-!
Shallow embedding of the quickbrush brushstroke-ledger and generation-orchestration
subsystem (models.py, stripe_utils.py, image_service.py, rate_limiter.py,
generation_service.py, admin_service.py).

Conventions of the embedding:
* MongoDB documents become Lean structures; the mutable per-account state
  (user document, transaction collection, generation collection, rate-limit
  attempt collection) is gathered in `AppState` and passed explicitly.
  All collections are the slice belonging to the single account under
  consideration (every query in the source filters on `user=user`).
* Python `datetime` values become `Int` seconds; Python `int` becomes `Int`.
* Calls to the external Stripe client are passed in as `Except Unit _`
  values: `.error ()` models the client raising, `.ok v` a successful fetch.
* Fallible Python functions that `return False` / raise become `Option`
  or `Bool`-returning Lean functions.
-/

namespace Quickbrush

/-- models.py `SubscriptionInfo` (embedded document): the only subscription
data stored locally: the Stripe reference, the stored period start, and the
usage counter for the current period. -/
structure SubscriptionInfo where
  stripe_subscription_id : Option String
  current_period_start : Option Int
  allowance_used_this_period : Int
deriving Repr, DecidableEq

/-- models.py `SubscriptionInfo.reset_allowance`. -/
def SubscriptionInfo.reset_allowance (si : SubscriptionInfo) (new_period_start : Int) :
    SubscriptionInfo :=
  { si with allowance_used_this_period := 0, current_period_start := some new_period_start }

/-- models.py `User`: the fields relevant to the ledger subsystem. -/
structure User where
  subscription : SubscriptionInfo
  purchased_brushstrokes : Int
deriving Repr, DecidableEq

/-- models.py `User.total_brushstrokes`: subscription allowance remaining
(clamped at 0) plus purchased packs. -/
def User.total_brushstrokes (u : User) (subscription_allowance : Int) : Int :=
  max 0 (subscription_allowance - u.subscription.allowance_used_this_period) +
    u.purchased_brushstrokes

/-- models.py `User.use_brushstrokes`: deduct from subscription allowance
first, then from purchased packs; `none` models returning `False`
(insufficient balance). -/
def User.use_brushstrokes (u : User) (amount : Int) (subscription_allowance : Int) :
    Option User :=
  if u.total_brushstrokes subscription_allowance < amount then none
  else
    let subscription_used := u.subscription.allowance_used_this_period
    let allowance_remaining := max 0 (subscription_allowance - subscription_used)
    let used_from_allowance := if allowance_remaining > 0 then min amount allowance_remaining else 0
    let amount1 := amount - used_from_allowance
    let purchased1 :=
      if amount1 > 0 then u.purchased_brushstrokes - amount1 else u.purchased_brushstrokes
    some { u with
      subscription := { u.subscription with
        allowance_used_this_period := subscription_used + used_from_allowance }
      purchased_brushstrokes := purchased1 }

/-- models.py `User.add_purchased_brushstrokes`. -/
def User.add_purchased_brushstrokes (u : User) (amount : Int) : User :=
  { u with purchased_brushstrokes := u.purchased_brushstrokes + amount }

/-- models.py `User.set_subscription_id`. -/
def User.set_subscription_id (u : User) (sid : String) (period_start : Int) : User :=
  { u with subscription :=
      { stripe_subscription_id := some sid
        current_period_start := some period_start
        allowance_used_this_period := 0 } }

/-- models.py `User.clear_subscription`. -/
def User.clear_subscription (u : User) : User :=
  { u with subscription :=
      { stripe_subscription_id := none
        current_period_start := none
        allowance_used_this_period := 0 } }

/-- models.py `BrushstrokeTransaction`: the fields relevant to the claims. -/
structure Txn where
  transaction_type : String
  amount : Int
  balance_after : Int
  generation : Option Nat
  description : String
deriving Repr, DecidableEq

/-- models.py `Generation`: the fields relevant to the archive claims. -/
structure Gen where
  id : Nat
  created_at : Int
  status : String
  image_data : Option (List Nat)
  brushstrokes_used : Int
deriving Repr, DecidableEq

/-- models.py: a rate-limit attempt record.
Modelled from the spec: rate_limiter.py imports a `RateLimit` document from
models.py that is absent there; the spec describes the attempt records as
`{account_ref, action, timestamp}` rows. -/
structure Attempt where
  action : String
  timestamp : Int
deriving Repr, DecidableEq

/-- The per-account persistent state: the user document plus this account's
slices of the transaction, generation and rate-limit attempt collections
(appended in insertion order). -/
structure AppState where
  user : User
  transactions : List Txn
  generations : List Gen
  attempts : List Attempt
deriving Repr, DecidableEq

/-- A Stripe subscription snapshot, as read by stripe_utils.py from
`subscriptions.retrieve` plus `subscription_items.list`. -/
structure StripeSub where
  status : String
  current_period_start : Option Int
  current_period_end : Option Int
  cancel_at_period_end : Bool
  price_id : String
deriving Repr, DecidableEq

/-- config.py `Config.get_subscription_tiers`: a finite map from Stripe
price id to (tier name, monthly allowance). Kept abstract as a function
because the keys are environment-supplied price ids. -/
abbrev Tiers := String → Option (String × Int)

/-- The tier table of config.py with the environment price ids replaced by
their config variable names: basic 250, pro 500, premium 1000, ultimate 2500. -/
def subscription_tiers : Tiers := fun price_id =>
  if price_id = "STRIPE_PRICE_BASIC" then some ("basic", 250)
  else if price_id = "STRIPE_PRICE_PRO" then some ("pro", 500)
  else if price_id = "STRIPE_PRICE_PREMIUM" then some ("premium", 1000)
  else if price_id = "STRIPE_PRICE_ULTIMATE" then some ("ultimate", 2500)
  else none

/-- stripe_utils.py `get_subscription_info`: returns `(subscription_dict,
allowance)`, or `(none, 0)` when there is no subscription reference, the
Stripe fetch raises, or the price id is unknown. -/
def get_subscription_info (tiers : Tiers) (fetch : Except Unit StripeSub) (u : User) :
    Option (String × StripeSub) × Int :=
  match u.subscription.stripe_subscription_id with
  | none => (none, 0)
  | some _ =>
    match fetch with
    | .error _ => (none, 0)
    | .ok sub =>
      match tiers sub.price_id with
      | none => (none, 0)
      | some (tier_name, current_allowance) => (some (tier_name, sub), current_allowance)

/-- stripe_utils.py `check_and_renew_subscription`: lazily reconcile the
stored period with Stripe.  Returns the new state and whether a renewal was
applied.  Note the source resets the allowance and stores the new period but
appends no transaction of any kind. -/
def check_and_renew_subscription (tiers : Tiers) (fetch : Except Unit StripeSub)
    (s : AppState) : AppState × Bool :=
  match s.user.subscription.stripe_subscription_id with
  | none => (s, false)
  | some _ =>
    match fetch with
    | .error _ => (s, false)
    | .ok sub =>
      if sub.status ≠ "active" ∧ sub.status ≠ "trialing" then
        ({ s with user := s.user.clear_subscription }, false)
      else
        match sub.current_period_start with
        | none => (s, false)
        | some stripe_period_start =>
          if s.user.subscription.current_period_start = some stripe_period_start then
            (s, false)
          else
            match tiers sub.price_id with
            | none => (s, false)
            | some _ =>
              ({ s with user := { s.user with
                  subscription := s.user.subscription.reset_allowance stripe_period_start } },
               true)

/-- stripe_utils.py `record_generation`: re-fetch the allowance, check and
deduct the brushstrokes, then append one `usage` transaction.  Returns
`false` (no state change) on insufficient balance. -/
def record_generation (tiers : Tiers) (fetch : Except Unit StripeSub)
    (brushstrokes_used : Int) (generation_id : Option Nat) (s : AppState) :
    AppState × Bool :=
  let allowance := (get_subscription_info tiers fetch s.user).2
  if s.user.total_brushstrokes allowance < brushstrokes_used then (s, false)
  else
    match s.user.use_brushstrokes brushstrokes_used allowance with
    | none => (s, false)
    | some u1 =>
      let txn : Txn :=
        { transaction_type := "usage"
          amount := -brushstrokes_used
          balance_after := u1.total_brushstrokes allowance
          generation := generation_id
          description := s!"Image generation ({brushstrokes_used} brushstrokes)" }
      ({ s with user := u1, transactions := s.transactions ++ [txn] }, true)

instance {ε α : Type} [DecidableEq ε] [DecidableEq α] : DecidableEq (Except ε α) :=
  fun a b =>
    match a, b with
    | .error e1, .error e2 =>
      if h : e1 = e2 then .isTrue (by rw [h]) else .isFalse (by simp [h])
    | .error _, .ok _ => .isFalse (by simp)
    | .ok _, .error _ => .isFalse (by simp)
    | .ok v1, .ok v2 =>
      if h : v1 = v2 then .isTrue (by rw [h]) else .isFalse (by simp [h])

/-- Checkout-session metadata as read by stripe_utils.py
`handle_checkout_completed` (`session.metadata`).  `brushstrokes` models
`int(metadata.get("brushstrokes", 0))`: `.ok v` is a successful parse (an
absent key parses to 0), `.error ()` models `int(...)` raising. -/
structure SessionMeta where
  user_id : Option String
  brushstrokes : Except Unit Int
deriving Repr, DecidableEq

/-- A Stripe checkout session as read by `handle_checkout_completed`. -/
structure CheckoutSession where
  payment_status : String
  metadata : Option SessionMeta
  mode : String
  subscription : Option String
  payment_intent : Option String
  amount_total : Int
deriving Repr, DecidableEq

/-- The external reads performed by `handle_checkout_completed`:
the session retrieval, whether `User.objects(id=user_id)` finds the account
under consideration, the subscription retrieval used in subscription mode,
the `get_subscription_info` fetch used in payment mode, and the wall clock. -/
structure CheckoutEnv where
  session : Except Unit CheckoutSession
  user_found : Bool
  sub_fetch : Except Unit StripeSub
  info_fetch : Except Unit StripeSub
  now : Int
deriving Repr, DecidableEq

/-- stripe_utils.py `handle_checkout_completed`: grants a subscription or a
one-time pack after checkout.  Returns the new state and the handler's
boolean result; every failure branch returns `false` with the state
unchanged. -/
def handle_checkout_completed (tiers : Tiers) (env : CheckoutEnv) (s : AppState) :
    AppState × Bool :=
  match env.session with
  | .error _ => (s, false)
  | .ok session =>
    if session.payment_status ≠ "paid" then (s, false)
    else
      match session.metadata with
      | none => (s, false)
      | some meta =>
        match meta.user_id with
        | none => (s, false)
        | some _ =>
          if ¬ env.user_found then (s, false)
          else if session.mode = "subscription" then
            match session.subscription with
            | none => (s, false)
            | some sid =>
              match env.sub_fetch with
              | .error _ => (s, false)
              | .ok sub =>
                match tiers sub.price_id with
                | none => (s, false)
                | some _ =>
                  let current_period_start := sub.current_period_start.getD env.now
                  ({ s with user := s.user.set_subscription_id sid current_period_start },
                   true)
          else if session.mode = "payment" then
            match meta.brushstrokes with
            | .error _ => (s, false)
            | .ok brushstrokes =>
              if brushstrokes ≤ 0 then (s, false)
              else
                let u1 := s.user.add_purchased_brushstrokes brushstrokes
                let allowance := (get_subscription_info tiers env.info_fetch u1).2
                let txn : Txn :=
                  { transaction_type := "purchase"
                    amount := brushstrokes
                    balance_after := u1.total_brushstrokes allowance
                    generation := none
                    description := s!"Purchased {brushstrokes} brushstroke pack" }
                ({ s with user := u1, transactions := s.transactions ++ [txn] }, true)
          else (s, false)

/-- admin_service.py `gift_tokens` (with the target user resolved to the
account under consideration): credit purchased brushstrokes and append an
`admin_grant` transaction whose `balance_after` is `purchased_brushstrokes`
only. -/
def gift_tokens (user_found : Bool) (amount : Int) (description : String)
    (s : AppState) : AppState × Bool :=
  if ¬ user_found then (s, false)
  else
    let u1 := s.user.add_purchased_brushstrokes amount
    let txn : Txn :=
      { transaction_type := "admin_grant"
        amount := amount
        balance_after := u1.purchased_brushstrokes
        generation := none
        description := description }
    ({ s with user := u1, transactions := s.transactions ++ [txn] }, true)

/-- Modelled from the spec: image_service.py reads
`Config.MAX_IMAGES_PER_USER`, which is absent from config.py in the
repository; the spec fixes the archive cap at 100. -/
def MAX_IMAGES_PER_USER : Nat := 100

/-- The query filter of image_service.py: generations with
`status="completed"` and `image_data__ne=None`. -/
def Gen.completedWithImage (g : Gen) : Bool :=
  g.status = "completed" && g.image_data.isSome

/-- Insert a generation into a list kept sorted newest-first
(`created_at` descending). -/
def insertDesc (g : Gen) : List Gen → List Gen
  | [] => [g]
  | h :: t => if h.created_at ≤ g.created_at then g :: h :: t else h :: insertDesc g t

/-- Sort generations newest-first (`created_at` descending): the embedding
of the query `order_by('-created_at')`. -/
def sortDesc : List Gen → List Gen
  | [] => []
  | h :: t => insertDesc h (sortDesc t)

/-- image_service.py `enforce_image_limit`: order the completed generations
that still hold image data newest-first, and for those beyond the cap clear
the image data while keeping the record. -/
def enforce_image_limit (s : AppState) : AppState :=
  let all_generations := sortDesc (s.generations.filter Gen.completedWithImage)
  if all_generations.length ≤ MAX_IMAGES_PER_USER then s
  else
    let oldest_ids := (all_generations.drop MAX_IMAGES_PER_USER).map Gen.id
    { s with generations := s.generations.map (fun g =>
        if oldest_ids.contains g.id then { g with image_data := none } else g) }

/-- The generation record built by image_service.py
`save_generation_with_image`. -/
def mkGeneration (gid : Nat) (now : Int) (image_data : List Nat)
    (brushstrokes_used : Int) : Gen :=
  { id := gid
    created_at := now
    status := "completed"
    image_data := some image_data
    brushstrokes_used := brushstrokes_used }

/-- image_service.py `save_generation_with_image`: persist the new completed
generation, then enforce the per-user image limit.  `gid`/`now` stand for the
fresh document id and the current time. -/
def save_generation_with_image (gid : Nat) (now : Int) (image_data : List Nat)
    (brushstrokes_used : Int) (s : AppState) : AppState × Gen :=
  let generation := mkGeneration gid now image_data brushstrokes_used
  let s1 := { s with generations := s.generations ++ [generation] }
  (enforce_image_limit s1, generation)

/-- image_service.py `get_remaining_image_slots`. -/
def get_remaining_image_slots (s : AppState) : Int :=
  max 0 ((MAX_IMAGES_PER_USER : Int) -
    (s.generations.filter Gen.completedWithImage).length)

/-- config.py rate-limit policy.
Modelled from the spec: rate_limiter.py reads `Config.get_rate_limits()`,
which is absent from config.py in the repository; the spec fixes the policy
at 1 per 10 seconds plus 50 per hour. -/
structure RateLimitPolicy where
  seconds_limit : Nat
  seconds_window : Int
  hourly_limit : Nat
deriving Repr, DecidableEq

/-- Modelled from the spec: the 1/10s + 50/hr policy. -/
def get_rate_limits : RateLimitPolicy :=
  { seconds_limit := 1, seconds_window := 10, hourly_limit := 50 }

/-- rate_limiter.py `RateLimitResult`. -/
structure RateLimitResult where
  allowed : Bool
  limit_type : String
  retry_after : Int
  requests_remaining : Int
  reset_time : Option Int
deriving Repr, DecidableEq

/-- `RateLimit.objects(...).order_by('timestamp').first()`: an attempt with
the least timestamp of the window (ties carry the same timestamp, which is
all the limiter reads). -/
def oldest_attempt : List Attempt → Option Attempt
  | [] => none
  | a :: t =>
    match oldest_attempt t with
    | none => some a
    | some b => if a.timestamp < b.timestamp then some a else some b

/-- The hourly-window half of rate_limiter.py `check_rate_limit`, reached
when the short window does not deny. -/
def check_rate_limit_hourly (s : AppState) (action : String) (now : Int)
    (limits : RateLimitPolicy) : RateLimitResult :=
  let hour_window_start := now - 3600
  let hourly_attempts := s.attempts.filter
    (fun a => a.action = action && hour_window_start ≤ a.timestamp)
  let allowed_result : RateLimitResult :=
    { allowed := true
      limit_type := ""
      retry_after := 0
      requests_remaining := (limits.hourly_limit : Int) - hourly_attempts.length
      reset_time := some (hour_window_start + 3600) }
  if hourly_attempts.length ≥ limits.hourly_limit then
    match oldest_attempt hourly_attempts with
    | some oldest_in_hour =>
      { allowed := false
        limit_type := "hourly"
        retry_after := max 1 (oldest_in_hour.timestamp + 3600 - now)
        requests_remaining := 0
        reset_time := some (oldest_in_hour.timestamp + 3600) }
    | none => allowed_result
  else allowed_result

/-- rate_limiter.py `check_rate_limit`: short window first, then hourly
window; exceptions fail open, which cannot occur in this pure embedding. -/
def check_rate_limit (s : AppState) (action : String) (now : Int) :
    RateLimitResult :=
  let limits := get_rate_limits
  let seconds_window_start := now - limits.seconds_window
  let recent_attempts := s.attempts.filter
    (fun a => a.action = action && seconds_window_start ≤ a.timestamp)
  if recent_attempts.length ≥ limits.seconds_limit then
    match oldest_attempt recent_attempts with
    | some oldest_in_window =>
      { allowed := false
        limit_type := "seconds"
        retry_after := max 1 (oldest_in_window.timestamp + limits.seconds_window - now)
        requests_remaining := 0
        reset_time := some (oldest_in_window.timestamp + limits.seconds_window) }
    | none => check_rate_limit_hourly s action now limits
  else check_rate_limit_hourly s action now limits

/-- rate_limiter.py `record_attempt`: append one attempt row. -/
def record_attempt (s : AppState) (action : String) (now : Int) : AppState :=
  { s with attempts := s.attempts ++ [{ action := action, timestamp := now }] }

/-- A client driving the rate limiter as the spec prescribes: check at each
request time, record the attempt exactly on admission. -/
def simulate_requests (action : String) : List Int → AppState → List RateLimitResult
  | [], _ => []
  | t :: ts, s =>
    let r := check_rate_limit s action t
    let s1 := if r.allowed then record_attempt s action t else s
    r :: simulate_requests action ts s1

/-- models.py `QUALITY_COSTS` keyed by `ImageQuality(quality)`; `none`
models `ImageQuality(quality)` raising `ValueError` for an unknown level. -/
def QUALITY_COSTS (quality : String) : Option Int :=
  if quality = "low" then some 1
  else if quality = "medium" then some 3
  else if quality = "high" then some 5
  else none

/-- The keys of the `generator_map` of generation_service.py. -/
def generator_map_keys : List String := ["character", "scene", "creature", "item"]

/-- generation_service.py `GenerationResult` (fields relevant to the
claims). -/
structure GenerationResult where
  success : Bool
  generation_id : Option Nat
  brushstrokes_used : Int
  brushstrokes_remaining : Int
  remaining_image_slots : Int
  error_message : Option String
deriving Repr, DecidableEq

/-- The defaulted failure result built throughout generation_service.py:
only `error_message` and `brushstrokes_remaining` are set. -/
def failResult (error_message : String) (brushstrokes_remaining : Int) :
    GenerationResult :=
  { success := false
    generation_id := none
    brushstrokes_used := 0
    brushstrokes_remaining := brushstrokes_remaining
    remaining_image_slots := 0
    error_message := some error_message }

/-- substring test used to mirror Python `"needle" in haystack`. -/
def strContains (haystack needle : String) : Bool :=
  decide (List.IsInfix needle.data haystack.data)

/-- The error-message rewriting of generation_service.py for a failed
OpenAI image call. -/
def map_image_error (e : String) : String :=
  if strContains e.toLower "rate_limit" then
    "OpenAI rate limit reached. Please wait a moment and try again."
  else if strContains e.toLower "insufficient_quota" then
    "OpenAI API quota exceeded. Please contact support."
  else if strContains e.toLower "invalid_api_key" then
    "API configuration error. Please contact support."
  else "Failed to generate image: " ++ e

/-- generation_service.py `check_brushstroke_balance`: fetch the allowance,
compare the total balance against the requested cost. -/
def check_brushstroke_balance (tiers : Tiers) (fetch : Except Unit StripeSub)
    (u : User) (brushstrokes_needed : Int) : Bool × Int × String :=
  let allowance := (get_subscription_info tiers fetch u).2
  let current_balance := u.total_brushstrokes allowance
  if current_balance < brushstrokes_needed then
    (false, current_balance,
      s!"Insufficient brushstrokes. Need {brushstrokes_needed}, have {current_balance}.")
  else (true, current_balance, "")

/-- The external interactions of one `generate_image` request, in program
order: the Stripe fetch of the balance check, the GPT description call, the
reference-image conversion, the OpenAI image call, the MongoDB save, the
Stripe fetch inside `record_generation`, the final Stripe fetch for the
balance display, the fresh generation id and the wall clock. -/
structure GenEnv where
  fetch_balance : Except Unit StripeSub
  description : Except String String
  refs_conv : Except String Unit
  image : Except String (List Nat)
  save : Except String Unit
  fetch_record : Except Unit StripeSub
  fetch_final : Except Unit StripeSub
  gid : Nat
  now : Int
deriving Repr, DecidableEq

/-- generation_service.py `generate_image`, the orchestrator: balance check,
description, (reference conversion), image call, archive save, usage debit,
result.  `none` models the uncaught `ValueError` on an unknown quality
string; every caught failure returns a `GenerationResult` with
`success := false`.  Note the source consults the rate limiter nowhere and
treats a failed `record_generation` as a success ("Continue anyway - image
was generated successfully"). -/
def generate_image (tiers : Tiers) (env : GenEnv) (generation_type : String)
    (quality : String) (has_reference_images : Bool) (s : AppState) :
    Option (AppState × GenerationResult) :=
  match QUALITY_COSTS quality with
  | none => none
  | some brushstrokes_needed =>
    let checked := check_brushstroke_balance tiers env.fetch_balance s.user brushstrokes_needed
    if ¬ checked.1 then
      some (s, failResult checked.2.2 checked.2.1)
    else if ¬ generator_map_keys.contains generation_type then
      some (s, failResult s!"Invalid generation_type: {generation_type}" checked.2.1)
    else
      match env.description with
      | .error e =>
        some (s, failResult ("Failed to generate image description: " ++ e) checked.2.1)
      | .ok _description =>
        match (if has_reference_images then env.refs_conv else .ok ()) with
        | .error e =>
          some (s, failResult ("Failed to process reference images: " ++ e) checked.2.1)
        | .ok _ =>
          match env.image with
          | .error e => some (s, failResult (map_image_error e) checked.2.1)
          | .ok image_data =>
            match env.save with
            | .error e =>
              some (s, failResult ("Failed to save generation: " ++ e) checked.2.1)
            | .ok _ =>
              let saved := save_generation_with_image env.gid env.now image_data
                brushstrokes_needed s
              let recorded := record_generation tiers env.fetch_record
                brushstrokes_needed (some saved.2.id) saved.1
              let allowance_final :=
                (get_subscription_info tiers env.fetch_final recorded.1.user).2
              some (recorded.1,
                { success := true
                  generation_id := some saved.2.id
                  brushstrokes_used := brushstrokes_needed
                  brushstrokes_remaining :=
                    recorded.1.user.total_brushstrokes allowance_final
                  remaining_image_slots := get_remaining_image_slots recorded.1
                  error_message := none })

/-- Spec-side balance formula (section 4.1):
`availableBalance(account, allowance) = max(0, allowance − usage_this_period)
 + purchased_credits`. -/
def availableBalance (purchased used allowance : Int) : Int :=
  max 0 (allowance - used) + purchased

/-- Spec-side debit (section 4.1), stated as a pure allocation for
comparison with `User.use_brushstrokes`: fail iff the available balance is
below the amount, otherwise consume from the allowance first and take the
remainder from purchased credits.  Returns the new pair
`(usage_this_period, purchased_credits)`. -/
def debit_spec (purchased used allowance amount : Int) : Option (Int × Int) :=
  if availableBalance purchased used allowance < amount then none
  else
    let fromAllowance := min amount (max 0 (allowance - used))
    some (used + fromAllowance, purchased - (amount - fromAllowance))

/-- Write a debit result back into the user document. -/
def applyDebit (u : User) (r : Int × Int) : User :=
  { u with
    subscription := { u.subscription with allowance_used_this_period := r.1 }
    purchased_brushstrokes := r.2 }

/-- The balance-affecting operations of the ledger (claim C8): one-time pack
checkout (payment mode), usage debit, subscription renewal reconciliation,
admin grant.  Each carries the external inputs of the corresponding source
function. -/
inductive LedgerOp where
  | purchase (payment_status : String) (metadata : Option SessionMeta)
      (user_found : Bool) (info_fetch : Except Unit StripeSub)
  | usage (fetch : Except Unit StripeSub) (n : Int) (genId : Option Nat)
  | renewal (fetch : Except Unit StripeSub)
  | gift (user_found : Bool) (a : Int) (d : String)

/-- Apply one balance-affecting operation through the embedded source
functions. -/
def LedgerOp.apply (tiers : Tiers) (s : AppState) : LedgerOp → AppState
  | .purchase payment_status metadata user_found info_fetch =>
    (handle_checkout_completed tiers
      { session := .ok
          { payment_status := payment_status
            metadata := metadata
            mode := "payment"
            subscription := none
            payment_intent := none
            amount_total := 0 }
        user_found := user_found
        sub_fetch := .error ()
        info_fetch := info_fetch
        now := 0 } s).1
  | .usage fetch n genId => (record_generation tiers fetch n genId s).1
  | .renewal fetch => (check_and_renew_subscription tiers fetch s).1
  | .gift user_found a d => (gift_tokens user_found a d s).1

/-- Run a sequence of balance-affecting operations. -/
def applyOps (tiers : Tiers) (ops : List LedgerOp) (s : AppState) : AppState :=
  ops.foldl (LedgerOp.apply tiers) s

/-- Well-formedness of a balance-affecting operation: usage debits carry a
non-negative amount (in the source the amount is a `QUALITY_COSTS` tariff,
1, 3 or 5). -/
def LedgerOp.wf : LedgerOp → Prop
  | .usage _ n _ => 0 ≤ n
  | _ => True

/-- Replay the ledger: fold the transaction amounts from the
account-creation balance 0. -/
def replayBalance (txs : List Txn) : Int :=
  txs.foldl (fun b t => b + t.amount) 0

/-- Every transaction's recorded `balance_after` equals the running replayed
balance at the point it was appended (starting from `b`). -/
def balancesOk (b : Int) : List Txn → Bool
  | [] => true
  | t :: ts => (t.balance_after = b + t.amount : Bool) && balancesOk (b + t.amount) ts

/-- A concrete active basic-tier Stripe snapshot used in concrete
evaluations. -/
def subBasic : StripeSub :=
  { status := "active"
    current_period_start := some 0
    current_period_end := some 2592000
    cancel_at_period_end := false
    price_id := "STRIPE_PRICE_BASIC" }

/-- A generation environment in which every external call succeeds and the
provider reports the active basic subscription. -/
def envAllOk : GenEnv :=
  { fetch_balance := .ok subBasic
    description := .ok "a detailed description"
    refs_conv := .ok ()
    image := .ok [1, 2, 3]
    save := .ok ()
    fetch_record := .ok subBasic
    fetch_final := .ok subBasic
    gid := 1
    now := 100 }

/-! ## Theorems -/

/-- C2: for every account with `purchased_credits ≥ 0`, `usage_this_period ≥ 0`
and every `allowance ≥ 0`, `amount ≥ 0`: the available balance equals
`max(0, allowance − usage_this_period) + purchased_credits`; the debit fails
exactly when that balance is below the amount, and otherwise consumes from
the allowance first (capped so it never exceeds the allowance when it
started below it) with the remainder taken from purchased credits, which
never go below 0.  The concrete instance (allowance 5, used 4, purchased 2,
amount 3) is evaluated in the witness. -/
theorem debit_matches_spec (u : User) (allowance amount : Int)
    (hp : 0 ≤ u.purchased_brushstrokes)
    (hu : 0 ≤ u.subscription.allowance_used_this_period)
    (ha : 0 ≤ allowance) (hm : 0 ≤ amount) :
    u.total_brushstrokes allowance =
      availableBalance u.purchased_brushstrokes
        u.subscription.allowance_used_this_period allowance
    ∧ (u.use_brushstrokes amount allowance = none ↔
        u.total_brushstrokes allowance < amount)
    ∧ u.use_brushstrokes amount allowance =
        Option.map (applyDebit u)
          (debit_spec u.purchased_brushstrokes
            u.subscription.allowance_used_this_period allowance amount)
    ∧ (∀ r, debit_spec u.purchased_brushstrokes
          u.subscription.allowance_used_this_period allowance amount = some r →
        (u.subscription.allowance_used_this_period ≤ allowance → r.1 ≤ allowance)
        ∧ 0 ≤ r.2) := by
  refine ⟨rfl, ?_, ?_, ?_⟩
  · simp only [User.use_brushstrokes]
    split
    · rename_i h
      simp [h]
    · rename_i h
      simp only [reduceCtorEq, false_iff]
      exact h
  · simp only [User.use_brushstrokes, debit_spec, availableBalance,
      User.total_brushstrokes]
    split
    · rfl
    · rename_i h
      simp only [Option.map_some', applyDebit, Option.some.injEq, User.mk.injEq,
        SubscriptionInfo.mk.injEq, true_and]
      refine ⟨?_, ?_⟩ <;> split_ifs <;> omega
  · intro r hr
    simp only [debit_spec, availableBalance] at hr
    split at hr
    · simp at hr
    · injection hr with hr
      subst hr
      refine ⟨fun hua => ?_, ?_⟩ <;> simp only <;> omega

/-- C2 witness: the theorem instantiated at allowance 5, used 4, purchased 2,
amount 3 — the debit succeeds, takes 1 from the allowance (usage becomes 5)
and 2 from purchased credits (which become 0), leaving balance 0. -/
theorem debit_matches_spec_witness :
    User.use_brushstrokes ⟨⟨some "sub_1", some 0, 4⟩, 2⟩ 3 5 =
      Option.map (applyDebit ⟨⟨some "sub_1", some 0, 4⟩, 2⟩) (debit_spec 2 4 5 3)
    ∧ debit_spec 2 4 5 3 = some (5, 0)
    ∧ User.use_brushstrokes ⟨⟨some "sub_1", some 0, 4⟩, 2⟩ 3 5 =
        some ⟨⟨some "sub_1", some 0, 5⟩, 0⟩
    ∧ User.total_brushstrokes ⟨⟨some "sub_1", some 0, 5⟩, 0⟩ 5 = 0 :=
  ⟨(debit_matches_spec ⟨⟨some "sub_1", some 0, 4⟩, 2⟩ 5 3 (by decide) (by decide)
      (by decide) (by decide)).2.2.1,
   by decide, by decide, by decide⟩

/-- C9: a generation request whose available balance is below the required
tariff is a terminal `InsufficientBalance` outcome: the returned state is the
input state unchanged (no balance mutation, no transaction, no artifact),
and the error reports the required and available amounts. -/
theorem insufficient_balance_terminal (tiers : Tiers) (env : GenEnv)
    (generation_type quality : String) (has_refs : Bool) (s : AppState)
    (c bal : Int) (hq : QUALITY_COSTS quality = some c)
    (hbal : s.user.total_brushstrokes
      (get_subscription_info tiers env.fetch_balance s.user).2 = bal)
    (hins : bal < c) :
    generate_image tiers env generation_type quality has_refs s =
      some (s, failResult s!"Insufficient brushstrokes. Need {c}, have {bal}." bal) := by
  simp only [generate_image, hq, check_brushstroke_balance, hbal]
  rw [if_pos hins]
  simp

/-- C9 witness: a user with no subscription and no purchased brushstrokes
requesting a medium-quality (3-brushstroke) generation is refused with the
exact shortfall message and an unchanged state. -/
theorem insufficient_balance_terminal_witness :
    generate_image subscription_tiers
      ⟨.error (), .ok "d", .ok (), .ok [1], .ok (), .error (), .error (), 1, 0⟩
      "character" "medium" false
      ⟨⟨⟨none, none, 0⟩, 0⟩, [], [], []⟩ =
    some (⟨⟨⟨none, none, 0⟩, 0⟩, [], [], []⟩,
      failResult "Insufficient brushstrokes. Need 3, have 0." 0) :=
  insufficient_balance_terminal subscription_tiers
    ⟨.error (), .ok "d", .ok (), .ok [1], .ok (), .error (), .error (), 1, 0⟩
    "character" "medium" false ⟨⟨⟨none, none, 0⟩, 0⟩, [], [], []⟩ 3 0
    rfl rfl (by decide)

/-- C3 counterexample: with a stored period start 0, an active subscription
and a provider period start 1 (strictly newer), the reconciler resets the
usage counter to 0, stores the new period start and leaves purchased
credits untouched — but appends no `subscription_renewal` transaction at
all, refuting the claimed "exactly one `renewal` ledger transaction". -/
theorem renewal_appends_no_transaction :
    check_and_renew_subscription subscription_tiers
      (.ok { subBasic with current_period_start := some 1 })
      ⟨⟨⟨some "sub_1", some 0, 3⟩, 7⟩, [], [], []⟩ =
      (⟨⟨⟨some "sub_1", some 1, 0⟩, 7⟩, [], [], []⟩, true)
    ∧ (((check_and_renew_subscription subscription_tiers
        (.ok { subBasic with current_period_start := some 1 })
        ⟨⟨⟨some "sub_1", some 0, 3⟩, 7⟩, [], [], []⟩).1.transactions.filter
          (fun t => t.transaction_type = "subscription_renewal")).length = 0) := by
  constructor
  · rfl
  · rfl

/-- C3 (amended): whenever the reconciler observes a provider period start
strictly newer than the stored one on an active (or trialing) subscription
with a known price, it resets `allowance_used_this_period` to 0 and stores
the new period start, leaving `purchased_brushstrokes` unchanged — and
appends no ledger transaction (the source records no `renewal` entry). -/
theorem renewal_resets_usage (tiers : Tiers) (fetch : Except Unit StripeSub)
    (s : AppState) (sub : StripeSub) (sid : String) (t0 t1 : Int)
    (tier_name : String) (allowance : Int)
    (hsid : s.user.subscription.stripe_subscription_id = some sid)
    (hfetch : fetch = .ok sub)
    (hstat : sub.status = "active" ∨ sub.status = "trialing")
    (hps : sub.current_period_start = some t1)
    (hstored : s.user.subscription.current_period_start = some t0)
    (hlt : t0 < t1)
    (hpr : tiers sub.price_id = some (tier_name, allowance)) :
    check_and_renew_subscription tiers fetch s =
      ({ s with user := { s.user with
          subscription := s.user.subscription.reset_allowance t1 } }, true)
    ∧ (check_and_renew_subscription tiers fetch s).1.transactions = s.transactions
    ∧ (check_and_renew_subscription tiers fetch s).1.user.purchased_brushstrokes =
        s.user.purchased_brushstrokes
    ∧ (check_and_renew_subscription tiers fetch
        s).1.user.subscription.allowance_used_this_period = 0
    ∧ (check_and_renew_subscription tiers fetch
        s).1.user.subscription.current_period_start = some t1 := by
  have hmain : check_and_renew_subscription tiers fetch s =
      ({ s with user := { s.user with
          subscription := s.user.subscription.reset_allowance t1 } }, true) := by
    simp only [check_and_renew_subscription, hsid, hfetch, hps, hpr]
    rw [if_neg (by rcases hstat with h | h <;> simp [h])]
    rw [if_neg (by rw [hstored]; simp; omega)]
  refine ⟨hmain, ?_, ?_, ?_, ?_⟩ <;> rw [hmain] <;> rfl

/-- C3 witness: the amended theorem evaluated at the concrete rollover of the
counterexample input (stored period 0, provider period 1, basic tier). -/
theorem renewal_resets_usage_witness :
    check_and_renew_subscription subscription_tiers
      (.ok { subBasic with current_period_start := some 1 })
      ⟨⟨⟨some "sub_1", some 0, 3⟩, 7⟩, [], [], []⟩ =
      (⟨⟨⟨some "sub_1", some 1, 0⟩, 7⟩, [], [], []⟩, true) := by
  have h := (renewal_resets_usage subscription_tiers
    (.ok { subBasic with current_period_start := some 1 })
    ⟨⟨⟨some "sub_1", some 0, 3⟩, 7⟩, [], [], []⟩
    { subBasic with current_period_start := some 1 } "sub_1" 0 1 "basic" 250
    rfl rfl (Or.inl rfl) rfl rfl (by decide) rfl).1
  exact h

/-- C4 counterexample: a subscribed user with 0 purchased brushstrokes whose
provider-backed balance (allowance 250) covers a 3-brushstroke request.
When the provider fetch raises, `get_subscription_info` returns allowance 0
rather than the last-known allowance, and the very request that succeeds
with the provider up is aborted with an insufficient-balance outcome. -/
theorem provider_outage_aborts_allowance_request :
    get_subscription_info subscription_tiers (.error ()) ⟨⟨some "sub_1", some 0, 0⟩, 0⟩ =
      (none, 0)
    ∧ (generate_image subscription_tiers envAllOk "character" "medium" false
        ⟨⟨⟨some "sub_1", some 0, 0⟩, 0⟩, [], [], []⟩).map (fun r => r.2.success) =
        some true
    ∧ (generate_image subscription_tiers { envAllOk with fetch_balance := .error () }
        "character" "medium" false
        ⟨⟨⟨some "sub_1", some 0, 0⟩, 0⟩, [], [], []⟩).map (fun r => r.2.success) =
        some false := by
  refine ⟨rfl, ?_, ?_⟩ <;> rfl

/-- C4 (amended): when the provider fetch raises, `get_subscription_info`
falls back to allowance 0 (not the last-known allowance, which is nowhere
stored), `check_and_renew_subscription` swallows the failure leaving the
whole state unchanged, and a request covered by purchased credits alone is
still admitted by the balance check. -/
theorem provider_outage_degrades_to_zero_allowance :
    (∀ (tiers : Tiers) (u : User) (sid : String),
      u.subscription.stripe_subscription_id = some sid →
      get_subscription_info tiers (.error ()) u = (none, 0))
    ∧ (∀ (tiers : Tiers) (s : AppState),
        check_and_renew_subscription tiers (.error ()) s = (s, false))
    ∧ (∀ (tiers : Tiers) (u : User) (c : Int),
        0 ≤ u.subscription.allowance_used_this_period →
        c ≤ u.purchased_brushstrokes →
        (check_brushstroke_balance tiers (.error ()) u c).1 = true) := by
  refine ⟨?_, ?_, ?_⟩
  · intro tiers u sid hsid
    simp [get_subscription_info, hsid]
  · intro tiers s
    unfold check_and_renew_subscription
    cases s.user.subscription.stripe_subscription_id <;> rfl
  · intro tiers u c hu hc
    have hall : (get_subscription_info tiers (.error ()) u).2 = 0 := by
      unfold get_subscription_info
      cases u.subscription.stripe_subscription_id <;> rfl
    simp only [check_brushstroke_balance, hall]
    rw [if_neg (by unfold User.total_brushstrokes; omega)]

/-- C4 witness: the amended behaviour at concrete inputs — an unreachable
provider yields `(none, 0)` for a subscribed user, leaves the reconciler
state unchanged, and a 3-brushstroke request backed by 5 purchased
brushstrokes passes the balance check. -/
theorem provider_outage_degrades_witness :
    get_subscription_info subscription_tiers (.error ()) ⟨⟨some "sub_1", some 0, 0⟩, 5⟩ =
      (none, 0)
    ∧ check_and_renew_subscription subscription_tiers (.error ())
        ⟨⟨⟨some "sub_1", some 0, 0⟩, 5⟩, [], [], []⟩ =
        (⟨⟨⟨some "sub_1", some 0, 0⟩, 5⟩, [], [], []⟩, false)
    ∧ (check_brushstroke_balance subscription_tiers (.error ())
        ⟨⟨some "sub_1", some 0, 0⟩, 5⟩ 3).1 = true :=
  ⟨provider_outage_degrades_to_zero_allowance.1 subscription_tiers
      ⟨⟨some "sub_1", some 0, 0⟩, 5⟩ "sub_1" rfl,
   provider_outage_degrades_to_zero_allowance.2.1 subscription_tiers
      ⟨⟨⟨some "sub_1", some 0, 0⟩, 5⟩, [], [], []⟩,
   provider_outage_degrades_to_zero_allowance.2.2 subscription_tiers
      ⟨⟨some "sub_1", some 0, 0⟩, 5⟩ 3 (by decide) (by decide)⟩

theorem enforce_image_limit_user (s : AppState) :
    (enforce_image_limit s).user = s.user := by
  unfold enforce_image_limit
  dsimp only
  split <;> rfl

theorem enforce_image_limit_transactions (s : AppState) :
    (enforce_image_limit s).transactions = s.transactions := by
  unfold enforce_image_limit
  dsimp only
  split <;> rfl

theorem enforce_image_limit_attempts (s : AppState) :
    (enforce_image_limit s).attempts = s.attempts := by
  unfold enforce_image_limit
  dsimp only
  split <;> rfl

/-- Eviction clears payloads but preserves the identity of every record:
the list of generation ids survives `enforce_image_limit` unchanged. -/
theorem enforce_image_limit_ids (s : AppState) :
    (enforce_image_limit s).generations.map Gen.id = s.generations.map Gen.id := by
  unfold enforce_image_limit
  dsimp only
  split
  · rfl
  · simp only [List.map_map]
    apply List.map_congr_left
    intro g _
    simp only [Function.comp_apply]
    split <;> rfl

theorem record_generation_generations (tiers : Tiers) (fetch : Except Unit StripeSub)
    (n : Int) (gid : Option Nat) (s : AppState) :
    (record_generation tiers fetch n gid s).1.generations = s.generations := by
  unfold record_generation
  dsimp only
  split
  · rfl
  · split <;> rfl

theorem record_generation_attempts (tiers : Tiers) (fetch : Except Unit StripeSub)
    (n : Int) (gid : Option Nat) (s : AppState) :
    (record_generation tiers fetch n gid s).1.attempts = s.attempts := by
  unfold record_generation
  dsimp only
  split
  · rfl
  · split <;> rfl

/-- `record_generation` either leaves the ledger untouched (insufficient
balance at debit time) or appends exactly one `usage` transaction for the
debited amount, referencing the given generation. -/
theorem record_generation_txn_cases (tiers : Tiers) (fetch : Except Unit StripeSub)
    (n : Int) (gid : Option Nat) (s : AppState) :
    ((record_generation tiers fetch n gid s).1.transactions = s.transactions
      ∧ (record_generation tiers fetch n gid s).1.user = s.user)
    ∨ ∃ t : Txn, (record_generation tiers fetch n gid s).1.transactions =
          s.transactions ++ [t]
        ∧ t.transaction_type = "usage" ∧ t.amount = -n ∧ t.generation = gid := by
  unfold record_generation
  dsimp only
  split
  · left
    exact ⟨rfl, rfl⟩
  · split
    · left
      exact ⟨rfl, rfl⟩
    · right
      exact ⟨_, rfl, rfl, rfl, rfl⟩

/-- C1 (amended): a usage charge happens only for a delivered artifact, and
strictly after it was generated and persisted.  For every run of the
orchestrator: a failed outcome (insufficient balance, invalid type,
description failure, reference failure, GenerationFailed, PersistFailed)
leaves the entire state unchanged — no `usage` transaction, no balance
change; a successful outcome has the new artifact persisted; and any ledger
change is exactly one `usage` transaction for the tariff, referencing the
persisted artifact, implying the outcome was a success.  (The converse —
every delivered artifact is charged — fails: see the counterexample.) -/
theorem charge_only_after_delivery (tiers : Tiers) (env : GenEnv)
    (generation_type quality : String) (has_refs : Bool) (s sfin : AppState)
    (r : GenerationResult) (c : Int)
    (hq : QUALITY_COSTS quality = some c)
    (h : generate_image tiers env generation_type quality has_refs s = some (sfin, r)) :
    (r.success = false → sfin = s)
    ∧ (r.success = true → env.gid ∈ sfin.generations.map Gen.id)
    ∧ (sfin.transactions ≠ s.transactions →
        r.success = true ∧ ∃ t : Txn, sfin.transactions = s.transactions ++ [t]
          ∧ t.transaction_type = "usage" ∧ t.amount = -c ∧ t.generation = some env.gid) := by
  simp only [generate_image, hq] at h
  have failCase : ∀ (res : GenerationResult), res.success = false →
      (s, res) = (sfin, r) →
      (r.success = false → sfin = s)
      ∧ (r.success = true → env.gid ∈ sfin.generations.map Gen.id)
      ∧ (sfin.transactions ≠ s.transactions →
          r.success = true ∧ ∃ t : Txn, sfin.transactions = s.transactions ++ [t]
            ∧ t.transaction_type = "usage" ∧ t.amount = -c ∧ t.generation = some env.gid) := by
    intro res hres heq
    obtain ⟨hs, hr⟩ := Prod.mk.injEq .. ▸ heq
    subst hs
    subst hr
    exact ⟨fun _ => rfl, fun hsucc => absurd hsucc (by simp [hres]),
      fun hne => absurd rfl hne⟩
  split at h
  · exact failCase _ rfl (Option.some.injEq .. ▸ h)
  · split at h
    · exact failCase _ rfl (Option.some.injEq .. ▸ h)
    · split at h
      · exact failCase _ rfl (Option.some.injEq .. ▸ h)
      · split at h
        · exact failCase _ rfl (Option.some.injEq .. ▸ h)
        · split at h
          · exact failCase _ rfl (Option.some.injEq .. ▸ h)
          · rename_i image_data heq_img
            split at h
            · exact failCase _ rfl (Option.some.injEq .. ▸ h)
            · -- success branch
              obtain ⟨hs, hr⟩ := Prod.mk.injEq .. ▸ (Option.some.injEq .. ▸ h)
              subst hs
              subst hr
              refine ⟨fun hfalse => by simp at hfalse, fun _ => ?_, fun hne => ?_⟩
              · rw [record_generation_generations]
                simp only [save_generation_with_image, enforce_image_limit_ids,
                  List.map_append]
                simp [mkGeneration]
              · refine ⟨rfl, ?_⟩
                rcases record_generation_txn_cases tiers env.fetch_record c
                    (some (save_generation_with_image env.gid env.now image_data c s).2.id)
                    (save_generation_with_image env.gid env.now image_data c s).1
                  with ⟨hsame, _⟩ | ⟨t, ht, htt, hta, htg⟩
                · exfalso
                  apply hne
                  rw [hsame]
                  simp only [save_generation_with_image, enforce_image_limit_transactions]
                · refine ⟨t, ?_, htt, hta, ?_⟩
                  · rw [ht]
                    simp only [save_generation_with_image, enforce_image_limit_transactions]
                  · rw [htg]
                    rfl

/-- C1 witness: a fully successful run on a subscribed account — the artifact
is persisted and exactly one `usage` transaction (amount −3, referencing
generation 1) is appended. -/
theorem charge_only_after_delivery_witness :
    generate_image subscription_tiers envAllOk "character" "medium" false
      ⟨⟨⟨some "sub_1", some 0, 0⟩, 0⟩, [], [], []⟩ =
      some (⟨⟨⟨some "sub_1", some 0, 3⟩, 0⟩,
             [⟨"usage", -3, 247, some 1, "Image generation (3 brushstrokes)"⟩],
             [mkGeneration 1 100 [1, 2, 3] 3], []⟩,
            ⟨true, some 1, 3, 247, 99, none⟩)
    ∧ (1 : Nat) ∈ (⟨⟨⟨some "sub_1", some 0, 3⟩, 0⟩,
             [⟨"usage", -3, 247, some 1, "Image generation (3 brushstrokes)"⟩],
             [mkGeneration 1 100 [1, 2, 3] 3], []⟩ : AppState).generations.map Gen.id :=
  ⟨rfl,
   (charge_only_after_delivery subscription_tiers envAllOk "character" "medium" false
      ⟨⟨⟨some "sub_1", some 0, 0⟩, 0⟩, [], [], []⟩ _ _ 3 rfl rfl).2.1 rfl⟩

/-- C1 counterexample: a run in which the image is generated and persisted
but the provider fetch inside `record_generation` fails, so the debit is
skipped — the outcome is still a success (the artifact is delivered), yet no
`usage` transaction is appended and the balance fields are unchanged,
refuting "charged if and only if delivered". -/
theorem delivered_but_not_charged :
    generate_image subscription_tiers { envAllOk with fetch_record := .error () }
      "character" "medium" false ⟨⟨⟨some "sub_1", some 0, 0⟩, 0⟩, [], [], []⟩ =
      some (⟨⟨⟨some "sub_1", some 0, 0⟩, 0⟩, [], [mkGeneration 1 100 [1, 2, 3] 3], []⟩,
            ⟨true, some 1, 3, 250, 99, none⟩) := by
  rfl

/-- C6: the orchestrator never consults the rate limiter.  First conjunct:
no run of `generate_image` ever records an attempt (the attempt collection
is passed through unchanged, because the source never calls
`record_attempt`).  Remaining conjuncts evaluate the failing input: a user
whose last attempt was 5 seconds ago is denied by `check_rate_limit`
(retry-after 5), yet the very same request sails through `generate_image`
successfully, recording no attempt. -/
theorem orchestrator_skips_rate_limiter :
    (∀ (tiers : Tiers) (env : GenEnv) (generation_type quality : String)
        (has_refs : Bool) (s sfin : AppState) (r : GenerationResult),
      generate_image tiers env generation_type quality has_refs s = some (sfin, r) →
      sfin.attempts = s.attempts)
    ∧ check_rate_limit ⟨⟨⟨some "sub_1", some 0, 0⟩, 0⟩, [], [], [⟨"generate_image", 95⟩]⟩
        "generate_image" 100 =
      { allowed := false
        limit_type := "seconds"
        retry_after := 5
        requests_remaining := 0
        reset_time := some 105 }
    ∧ (generate_image subscription_tiers envAllOk "character" "medium" false
        ⟨⟨⟨some "sub_1", some 0, 0⟩, 0⟩, [], [], [⟨"generate_image", 95⟩]⟩).map
          (fun p => (p.2.success, p.1.attempts)) =
        some (true, [⟨"generate_image", 95⟩]) := by
  refine ⟨?_, by rfl, by rfl⟩
  intro tiers env generation_type quality has_refs s sfin r h
  simp only [generate_image] at h
  have failA : ∀ (res : GenerationResult), (s, res) = (sfin, r) →
      sfin.attempts = s.attempts := by
    intro res heq
    obtain ⟨hs, hr⟩ := Prod.mk.injEq .. ▸ heq
    subst hs
    rfl
  split at h
  · exact Option.noConfusion h
  · split at h
    · exact failA _ (Option.some.injEq .. ▸ h)
    · split at h
      · exact failA _ (Option.some.injEq .. ▸ h)
      · split at h
        · exact failA _ (Option.some.injEq .. ▸ h)
        · split at h
          · exact failA _ (Option.some.injEq .. ▸ h)
          · split at h
            · exact failA _ (Option.some.injEq .. ▸ h)
            · split at h
              · exact failA _ (Option.some.injEq .. ▸ h)
              · obtain ⟨hs, hr⟩ := Prod.mk.injEq .. ▸ (Option.some.injEq .. ▸ h)
                subst hs
                rw [record_generation_attempts]
                simp only [save_generation_with_image]
                rw [enforce_image_limit_attempts]

/-- C6 witness: the no-attempt-recorded conjunct applied to the concrete
successful run of the counterexample state. -/
theorem orchestrator_skips_rate_limiter_witness :
    (⟨⟨⟨some "sub_1", some 0, 3⟩, 0⟩,
      [⟨"usage", -3, 247, some 1, "Image generation (3 brushstrokes)"⟩],
      [mkGeneration 1 100 [1, 2, 3] 3],
      [⟨"generate_image", 95⟩]⟩ : AppState).attempts =
    (⟨⟨⟨some "sub_1", some 0, 0⟩, 0⟩, [], [], [⟨"generate_image", 95⟩]⟩ : AppState).attempts :=
  orchestrator_skips_rate_limiter.1 subscription_tiers envAllOk "character" "medium" false
    ⟨⟨⟨some "sub_1", some 0, 0⟩, 0⟩, [], [], [⟨"generate_image", 95⟩]⟩ _ _ rfl

/-- C10: for a one-time pack checkout session (payment mode), credits are
granted and a `purchase` transaction appended exactly when the session is
paid, its metadata carries a resolvable user and a positive brushstroke
amount; in every other case the handler returns false and the state — in
particular `purchased_brushstrokes` and the transaction log — is unchanged. -/
theorem pack_checkout_grant (tiers : Tiers) (env : CheckoutEnv) (s : AppState)
    (session : CheckoutSession)
    (hsess : env.session = .ok session) (hmode : session.mode = "payment") :
    ((handle_checkout_completed tiers env s).2 = true ↔
      (session.payment_status = "paid" ∧ ∃ meta uid b,
        session.metadata = some meta ∧ meta.user_id = some uid
        ∧ env.user_found = true ∧ meta.brushstrokes = .ok b ∧ 0 < b))
    ∧ ((handle_checkout_completed tiers env s).2 = false →
        handle_checkout_completed tiers env s = (s, false))
    ∧ (∀ meta b, session.metadata = some meta → meta.brushstrokes = .ok b →
        (handle_checkout_completed tiers env s).2 = true →
        (handle_checkout_completed tiers env s).1.user.purchased_brushstrokes =
          s.user.purchased_brushstrokes + b
        ∧ ∃ t : Txn, (handle_checkout_completed tiers env s).1.transactions =
            s.transactions ++ [t]
          ∧ t.transaction_type = "purchase" ∧ t.amount = b) := by
  have hmode' : ¬ session.mode = "subscription" := by
    rw [hmode]
    decide
  by_cases hpaid : session.payment_status = "paid"
  · rcases hmeta : session.metadata with _ | meta
    · have hh : handle_checkout_completed tiers env s = (s, false) := by
        simp [handle_checkout_completed, hsess, hpaid, hmeta]
      rw [hh]
      refine ⟨?_, fun _ => rfl, ?_⟩
      · simp [hmeta]
      · intro meta b hm
        exact fun _ hfalse => by simp at hfalse
    · rcases huid : meta.user_id with _ | uid
      · have hh : handle_checkout_completed tiers env s = (s, false) := by
          simp [handle_checkout_completed, hsess, hpaid, hmeta, huid]
        rw [hh]
        refine ⟨?_, fun _ => rfl, fun _ _ _ _ hfalse => by simp at hfalse⟩
        simp only [Bool.false_eq_true, false_iff, not_and]
        intro _
        rintro ⟨meta1, uid1, b1, hm1, hu1, -⟩
        injection hm1 with hm1
        subst hm1
        rw [huid] at hu1
        exact Option.noConfusion hu1
      · by_cases hfound : env.user_found
        · rcases hb : meta.brushstrokes with _ | b
          · have hh : handle_checkout_completed tiers env s = (s, false) := by
              simp [handle_checkout_completed, hsess, hpaid, hmeta, huid, hfound,
                hmode', hmode, hb]
            rw [hh]
            refine ⟨?_, fun _ => rfl, fun _ _ hm hbr _ => ?_⟩
            · simp only [Bool.false_eq_true, false_iff, not_and]
              intro _
              rintro ⟨meta1, uid1, b1, hm1, -, -, hb1, -⟩
              injection hm1 with hm1
              subst hm1
              rw [hb] at hb1
              exact Except.noConfusion hb1
            · injection hm with hm
              subst hm
              rw [hb] at hbr
              exact Except.noConfusion hbr
          · by_cases hble : b ≤ 0
            · have hh : handle_checkout_completed tiers env s = (s, false) := by
                simp [handle_checkout_completed, hsess, hpaid, hmeta, huid, hfound,
                  hmode', hmode, hb, hble]
              rw [hh]
              refine ⟨?_, fun _ => rfl, fun _ _ hm hbr hfalse => by simp at hfalse⟩
              simp only [Bool.false_eq_true, false_iff, not_and]
              intro _
              rintro ⟨meta1, uid1, b1, hm1, -, -, hb1, hpos1⟩
              injection hm1 with hm1
              subst hm1
              rw [hb] at hb1
              injection hb1 with hb1
              omega
            · have hh : handle_checkout_completed tiers env s =
                  ({ s with
                      user := s.user.add_purchased_brushstrokes b
                      transactions := s.transactions ++
                        [{ transaction_type := "purchase"
                           amount := b
                           balance_after := (s.user.add_purchased_brushstrokes
                             b).total_brushstrokes
                             (get_subscription_info tiers env.info_fetch
                               (s.user.add_purchased_brushstrokes b)).2
                           generation := none
                           description := s!"Purchased {b} brushstroke pack" }] }, true) := by
                simp [handle_checkout_completed, hsess, hpaid, hmeta, huid, hfound,
                  hmode', hmode, hb, hble]
              rw [hh]
              refine ⟨?_, fun hfalse => by simp at hfalse, fun meta1 b1 hm1 hb1 _ => ?_⟩
              · simp only [true_iff]
                exact ⟨hpaid, meta, uid, b, rfl, huid, by simp [hfound], hb, by omega⟩
              · injection hm1 with hm1
                subst hm1
                rw [hb] at hb1
                injection hb1 with hb1
                subst hb1
                exact ⟨rfl, _, rfl, rfl, rfl⟩
        · have hh : handle_checkout_completed tiers env s = (s, false) := by
            simp [handle_checkout_completed, hsess, hpaid, hmeta, huid, hfound]
          rw [hh]
          refine ⟨?_, fun _ => rfl, fun _ _ _ _ hfalse => by simp at hfalse⟩
          simp only [Bool.false_eq_true, false_iff, not_and]
          intro _
          rintro ⟨-, -, -, -, -, hf, -⟩
          exact hfound (by simpa using hf)
  · have hh : handle_checkout_completed tiers env s = (s, false) := by
      simp [handle_checkout_completed, hsess, hpaid]
    rw [hh]
    refine ⟨?_, fun _ => rfl, fun _ _ _ _ hfalse => by simp at hfalse⟩
    simp only [Bool.false_eq_true, false_iff, not_and]
    intro hpaid1
    exact absurd hpaid1 hpaid

/-- C10 witness: a paid pack session carrying 250 brushstrokes for a
resolvable user grants the credits and appends one `purchase` transaction. -/
theorem pack_checkout_grant_witness :
    (handle_checkout_completed subscription_tiers
      { session := .ok
          { payment_status := "paid"
            metadata := some { user_id := some "u1", brushstrokes := .ok 250 }
            mode := "payment"
            subscription := none
            payment_intent := some "pi_1"
            amount_total := 1000 }
        user_found := true
        sub_fetch := .error ()
        info_fetch := .error ()
        now := 0 }
      ⟨⟨⟨none, none, 0⟩, 5⟩, [], [], []⟩).1.user.purchased_brushstrokes = 5 + 250
    ∧ ∃ t : Txn, (handle_checkout_completed subscription_tiers
      { session := .ok
          { payment_status := "paid"
            metadata := some { user_id := some "u1", brushstrokes := .ok 250 }
            mode := "payment"
            subscription := none
            payment_intent := some "pi_1"
            amount_total := 1000 }
        user_found := true
        sub_fetch := .error ()
        info_fetch := .error ()
        now := 0 }
      ⟨⟨⟨none, none, 0⟩, 5⟩, [], [], []⟩).1.transactions = [] ++ [t]
      ∧ t.transaction_type = "purchase" ∧ t.amount = 250 :=
  (pack_checkout_grant subscription_tiers
    { session := .ok
        { payment_status := "paid"
          metadata := some { user_id := some "u1", brushstrokes := .ok 250 }
          mode := "payment"
          subscription := none
          payment_intent := some "pi_1"
          amount_total := 1000 }
      user_found := true
      sub_fetch := .error ()
      info_fetch := .error ()
      now := 0 }
    ⟨⟨⟨none, none, 0⟩, 5⟩, [], [], []⟩
    { payment_status := "paid"
      metadata := some { user_id := some "u1", brushstrokes := .ok 250 }
      mode := "payment"
      subscription := none
      payment_intent := some "pi_1"
      amount_total := 1000 }
    rfl rfl).2.2
    { user_id := some "u1", brushstrokes := .ok 250 } 250 rfl rfl rfl

theorem oldest_attempt_ne_none (a : Attempt) (t : List Attempt) :
    oldest_attempt (a :: t) ≠ none := by
  simp only [oldest_attempt]
  split
  · simp
  · split <;> simp

/-- `oldest_attempt` returns an element of the list carrying its minimal
timestamp. -/
theorem oldest_attempt_min : ∀ (l : List Attempt) (o : Attempt),
    oldest_attempt l = some o → o ∈ l ∧ ∀ a ∈ l, o.timestamp ≤ a.timestamp
  | [], o, h => Option.noConfusion h
  | a :: t, o, h => by
    rcases ht : oldest_attempt t with _ | b
    · have h1 : some a = some o := by
        simpa [oldest_attempt, ht] using h
      injection h1 with h1
      subst h1
      cases t with
      | nil =>
        refine ⟨by simp, ?_⟩
        intro x hx
        rcases List.mem_cons.mp hx with h2 | h2
        · rw [h2]
        · cases h2
      | cons c u => exact absurd ht (oldest_attempt_ne_none c u)
    · have h1 : (if a.timestamp < b.timestamp then some a else some b) = some o := by
        simpa [oldest_attempt, ht] using h
      obtain ⟨hbmem, hbmin⟩ := oldest_attempt_min t b ht
      by_cases hab : a.timestamp < b.timestamp
      · rw [if_pos hab] at h1
        injection h1 with h1
        subst h1
        refine ⟨by simp, ?_⟩
        intro x hx
        rcases List.mem_cons.mp hx with h2 | h2
        · rw [h2]
        · exact le_trans (le_of_lt hab) (hbmin x h2)
      · rw [if_neg hab] at h1
        injection h1 with h1
        subst h1
        refine ⟨List.mem_cons_of_mem a hbmem, ?_⟩
        intro x hx
        rcases List.mem_cons.mp hx with h2 | h2
        · subst h2
          omega
        · exact hbmin x h2

/-- A single attempt at `t0` denies any further request at time
`x ∈ [t0, t0 + 9]` through the short window, with
`retry_after = max 1 (t0 + 10 − x)`. -/
theorem check_denies_after_single (action : String) (t0 x : Int) (u : User)
    (txs : List Txn) (gens : List Gen) (h1 : t0 ≤ x) (h2 : x ≤ t0 + 9) :
    check_rate_limit ⟨u, txs, gens, [⟨action, t0⟩]⟩ action x =
      { allowed := false, limit_type := "seconds",
        retry_after := max 1 (t0 + 10 - x), requests_remaining := 0,
        reset_time := some (t0 + 10) } := by
  have hfil : List.filter (fun a : Attempt => a.action = action && x - 10 ≤ a.timestamp)
      ([⟨action, t0⟩] : List Attempt) = [⟨action, t0⟩] := by
    simp only [List.filter_cons, List.filter_nil]
    rw [if_pos]
    simp only [Bool.and_eq_true, decide_eq_true_eq]
    exact ⟨trivial, by omega⟩
  simp only [check_rate_limit, get_rate_limits]
  simp only [hfil, oldest_attempt, List.length_cons, List.length_nil]
  rfl

/-- Once one attempt at `t0` is on record, every further request in the
next 9 seconds is denied and leaves the attempt log unchanged: the
simulation returns the pointwise denial results. -/
theorem simulate_all_denied (action : String) (t0 : Int) (u : User)
    (txs : List Txn) (gens : List Gen) :
    ∀ (ts : List Int) (tprev : Int), t0 ≤ tprev →
      List.Chain (· ≤ ·) tprev ts → (∀ x ∈ ts, x ≤ t0 + 9) →
      simulate_requests action ts ⟨u, txs, gens, [⟨action, t0⟩]⟩ =
        ts.map (fun x =>
          { allowed := false, limit_type := "seconds",
            retry_after := max 1 (t0 + 10 - x), requests_remaining := 0,
            reset_time := some (t0 + 10) })
  | [], _, _, _, _ => rfl
  | x :: ts, tprev, hpt, hchain, hub => by
    rw [List.chain_cons] at hchain
    obtain ⟨hpx, hchain⟩ := hchain
    have hx0 : t0 ≤ x := le_trans hpt hpx
    have hxub : x ≤ t0 + 9 := hub x (by simp)
    have hden := check_denies_after_single action t0 x u txs gens hx0 hxub
    simp only [simulate_requests, hden, List.map_cons, Bool.false_eq_true, if_false]
    rw [simulate_all_denied action t0 u txs gens ts x hx0 hchain
      (fun y hy => hub y (List.mem_cons_of_mem x hy))]

/-- C5 (amended): the back-off is exact except for a floor of one second:
for every denial, `retry_after = max 1 (window − (now − oldest))`, where
`oldest` really is the minimal-timestamp attempt of the window (first
conjunct).  The second and third conjuncts give the short-window and
hourly-window denial results; the last conjunct is the 1/10s + 50/hr burst
scenario: 11 requests within 9 seconds from a clean log yield exactly 1
allowed and 10 denied, every denial has a positive retry-after, and the
retry-afters are non-increasing as time advances. -/
theorem rate_limit_exact_backoff :
    (∀ (l : List Attempt) (o : Attempt), oldest_attempt l = some o →
      o ∈ l ∧ ∀ a ∈ l, o.timestamp ≤ a.timestamp)
    ∧ (∀ (s : AppState) (action : String) (now : Int) (o : Attempt),
        1 ≤ (s.attempts.filter
          (fun a => a.action = action && now - 10 ≤ a.timestamp)).length →
        oldest_attempt (s.attempts.filter
          (fun a => a.action = action && now - 10 ≤ a.timestamp)) = some o →
        check_rate_limit s action now =
          { allowed := false, limit_type := "seconds",
            retry_after := max 1 (10 - (now - o.timestamp)),
            requests_remaining := 0, reset_time := some (o.timestamp + 10) })
    ∧ (∀ (s : AppState) (action : String) (now : Int) (o : Attempt),
        (s.attempts.filter
          (fun a => a.action = action && now - 10 ≤ a.timestamp)).length = 0 →
        50 ≤ (s.attempts.filter
          (fun a => a.action = action && now - 3600 ≤ a.timestamp)).length →
        oldest_attempt (s.attempts.filter
          (fun a => a.action = action && now - 3600 ≤ a.timestamp)) = some o →
        check_rate_limit s action now =
          { allowed := false, limit_type := "hourly",
            retry_after := max 1 (3600 - (now - o.timestamp)),
            requests_remaining := 0, reset_time := some (o.timestamp + 3600) })
    ∧ (∀ (u : User) (txs : List Txn) (gens : List Gen) (action : String)
        (t0 : Int) (ts : List Int),
        ts.length = 10 → List.Chain (· ≤ ·) t0 ts → (∀ x ∈ ts, x ≤ t0 + 9) →
        (simulate_requests action (t0 :: ts) ⟨u, txs, gens, []⟩).countP
            (fun r => r.allowed) = 1
        ∧ (simulate_requests action (t0 :: ts) ⟨u, txs, gens, []⟩).countP
            (fun r => !r.allowed) = 10
        ∧ (∀ r ∈ (simulate_requests action (t0 :: ts) ⟨u, txs, gens, []⟩).tail,
            r.allowed = false ∧ 0 < r.retry_after)
        ∧ List.Chain' (fun a b => b.retry_after ≤ a.retry_after)
            (simulate_requests action (t0 :: ts) ⟨u, txs, gens, []⟩).tail) := by
  refine ⟨oldest_attempt_min, ?_, ?_, ?_⟩
  · intro s action now o hlen ho
    simp only [check_rate_limit, get_rate_limits]
    rw [if_pos hlen, ho]
    have harith : o.timestamp + 10 - now = 10 - (now - o.timestamp) := by omega
    simp [harith]
  · intro s action now o hsec hlen ho
    simp only [check_rate_limit, check_rate_limit_hourly, get_rate_limits]
    rw [if_neg (by omega), if_pos hlen, ho]
    have harith : o.timestamp + 3600 - now = 3600 - (now - o.timestamp) := by omega
    simp [harith]
  · intro u txs gens action t0 ts hlen hchain hub
    have hfirst : check_rate_limit ⟨u, txs, gens, []⟩ action t0 =
        { allowed := true, limit_type := "", retry_after := 0,
          requests_remaining := 50, reset_time := some (t0 - 3600 + 3600) } := rfl
    have hsim0 : simulate_requests action (t0 :: ts) ⟨u, txs, gens, []⟩ =
        { allowed := true, limit_type := "", retry_after := 0,
          requests_remaining := 50, reset_time := some (t0 - 3600 + 3600) } ::
        simulate_requests action ts ⟨u, txs, gens, [⟨action, t0⟩]⟩ := rfl
    have hsim : simulate_requests action (t0 :: ts) ⟨u, txs, gens, []⟩ =
        { allowed := true, limit_type := "", retry_after := 0,
          requests_remaining := 50, reset_time := some (t0 - 3600 + 3600) } ::
        ts.map (fun x =>
          ({ allowed := false, limit_type := "seconds",
             retry_after := max 1 (t0 + 10 - x), requests_remaining := 0,
             reset_time := some (t0 + 10) } : RateLimitResult)) := by
      rw [hsim0, simulate_all_denied action t0 u txs gens ts t0 (le_refl t0) hchain hub]
    rw [hsim]
    refine ⟨?_, ?_, ?_, ?_⟩
    · simp only [List.countP_cons]
      rw [List.countP_eq_length_filter]
      rw [show (ts.map (fun x =>
          ({ allowed := false, limit_type := "seconds",
             retry_after := max 1 (t0 + 10 - x), requests_remaining := 0,
             reset_time := some (t0 + 10) } : RateLimitResult))).filter
            (fun r => r.allowed) = [] from by
        apply List.filter_eq_nil.mpr
        intro r hr
        obtain ⟨x, _, hx⟩ := List.mem_map.mp hr
        subst hx
        simp]
      simp
    · simp only [List.countP_cons]
      rw [List.countP_eq_length_filter]
      rw [show (ts.map (fun x =>
          ({ allowed := false, limit_type := "seconds",
             retry_after := max 1 (t0 + 10 - x), requests_remaining := 0,
             reset_time := some (t0 + 10) } : RateLimitResult))).filter
            (fun r => !r.allowed) =
          ts.map (fun x =>
          ({ allowed := false, limit_type := "seconds",
             retry_after := max 1 (t0 + 10 - x), requests_remaining := 0,
             reset_time := some (t0 + 10) } : RateLimitResult)) from by
        apply List.filter_eq_self.mpr
        intro r hr
        obtain ⟨x, _, hx⟩ := List.mem_map.mp hr
        subst hx
        simp]
      simp [hlen]
    · intro r hr
      simp only [List.tail_cons] at hr
      obtain ⟨x, _, hx⟩ := List.mem_map.mp hr
      subst hx
      refine ⟨rfl, ?_⟩
      simp only
      omega
    · simp only [List.tail_cons]
      rw [List.chain'_map]
      have hchain2 : List.Chain' (· ≤ ·) ts :=
        (show List.Chain' (· ≤ ·) (t0 :: ts) from hchain).tail
      exact hchain2.imp (fun a b hab => by simp only; omega)

/-- C5 witness: the hourly-denial conjunct of the theorem at a concrete
log of 50 attempts (timestamps 100..149, none in the last 10 seconds) and a
request at t = 3800: denied with `retry_after = max 1 (3600 − (3800 − 100))
= 1`. -/
theorem rate_limit_exact_backoff_witness :
    check_rate_limit ⟨⟨⟨none, none, 0⟩, 0⟩, [], [],
        (List.range 50).map (fun i => ⟨"generate_image", 100 + i⟩)⟩
      "generate_image" 3600 =
      { allowed := false, limit_type := "hourly",
        retry_after := max 1 (3600 - (3600 - 100)),
        requests_remaining := 0, reset_time := some (100 + 3600) } :=
  rate_limit_exact_backoff.2.2.1
    ⟨⟨⟨none, none, 0⟩, 0⟩, [], [],
      (List.range 50).map (fun i => ⟨"generate_image", 100 + i⟩)⟩
    "generate_image" 3600 ⟨"generate_image", 100⟩ (by decide) (by decide) (by decide)

/-- C5 counterexample: an attempt at time 0 and a check at time 10 — the
attempt is still inside the inclusive 10-second window, so the check is
denied, but `retry_after` is 1 (the source floors it with `max(1, ...)`),
not the claimed exact value `window − (now − oldest) = 0`. -/
theorem rate_limit_backoff_not_exact :
    check_rate_limit ⟨⟨⟨none, none, 0⟩, 0⟩, [], [], [⟨"generate_image", 0⟩]⟩
      "generate_image" 10 =
      { allowed := false, limit_type := "seconds", retry_after := 1,
        requests_remaining := 0, reset_time := some 10 }
    ∧ ((10 : Int) - (10 - 0) = 0) ∧ ((1 : Int) ≠ 0) :=
  ⟨rfl, rfl, by decide⟩

theorem replay_shift : ∀ (l : List Txn) (b : Int),
    l.foldl (fun acc t => acc + t.amount) b = b + replayBalance l
  | [], b => by simp [replayBalance]
  | x :: xs, b => by
    simp only [replayBalance, List.foldl_cons]
    rw [replay_shift xs (b + x.amount), replay_shift xs (0 + x.amount)]
    omega

theorem replay_cons (x : Txn) (xs : List Txn) :
    replayBalance (x :: xs) = x.amount + replayBalance xs := by
  simp only [replayBalance, List.foldl_cons]
  rw [replay_shift xs (0 + x.amount)]
  simp only [replayBalance]
  omega

theorem replay_snoc (l : List Txn) (t : Txn) :
    replayBalance (l ++ [t]) = replayBalance l + t.amount := by
  simp only [replayBalance, List.foldl_append, List.foldl_cons, List.foldl_nil]

theorem balancesOk_snoc_aux : ∀ (l : List Txn) (b : Int) (t : Txn),
    balancesOk b l = true → t.balance_after = b + replayBalance l + t.amount →
    balancesOk b (l ++ [t]) = true
  | [], b, t, _, ht => by
    simp only [replayBalance, List.foldl_nil] at ht
    simp only [List.nil_append, balancesOk, Bool.and_eq_true, decide_eq_true_eq]
    exact ⟨by omega, trivial⟩
  | x :: xs, b, t, h, ht => by
    simp only [balancesOk, Bool.and_eq_true, decide_eq_true_eq] at h
    obtain ⟨h1, h2⟩ := h
    simp only [List.cons_append, balancesOk, Bool.and_eq_true, decide_eq_true_eq]
    refine ⟨h1, balancesOk_snoc_aux xs (b + x.amount) t h2 ?_⟩
    rw [replay_cons] at ht
    omega

theorem get_subscription_info_no_sub (tiers : Tiers) (f : Except Unit StripeSub)
    (u : User) (h : u.subscription.stripe_subscription_id = none) :
    get_subscription_info tiers f u = (none, 0) := by
  simp [get_subscription_info, h]

/-- One balance-affecting operation preserves the no-subscription ledger
invariant: the subscription stays absent, the usage counter stays
non-negative, replaying the ledger still reproduces the purchased balance,
and every recorded `balance_after` matches the running replayed balance. -/
theorem ledger_step (tiers : Tiers) (op : LedgerOp) (s : AppState)
    (hwf : op.wf)
    (hsub : s.user.subscription.stripe_subscription_id = none)
    (hused : 0 ≤ s.user.subscription.allowance_used_this_period)
    (hrep : replayBalance s.transactions = s.user.purchased_brushstrokes)
    (hok : balancesOk 0 s.transactions = true) :
    (op.apply tiers s).user.subscription.stripe_subscription_id = none
    ∧ 0 ≤ (op.apply tiers s).user.subscription.allowance_used_this_period
    ∧ replayBalance (op.apply tiers s).transactions =
        (op.apply tiers s).user.purchased_brushstrokes
    ∧ balancesOk 0 (op.apply tiers s).transactions = true := by
  have hkeep : (s.user.subscription.stripe_subscription_id = none
      ∧ 0 ≤ s.user.subscription.allowance_used_this_period
      ∧ replayBalance s.transactions = s.user.purchased_brushstrokes
      ∧ balancesOk 0 s.transactions = true) := ⟨hsub, hused, hrep, hok⟩
  cases op with
  | purchase ps meta found fetch =>
    by_cases hpaid : ps = "paid"
    · rcases hmeta : meta with _ | m
      · have hh : (LedgerOp.purchase ps none found fetch).apply tiers s = s := by
          simp [LedgerOp.apply, handle_checkout_completed, hpaid]
        rw [hh]
        exact hkeep
      · rcases hm : m.user_id with _ | uid
        · have hh : (LedgerOp.purchase ps (some m) found fetch).apply tiers s = s := by
            simp [LedgerOp.apply, handle_checkout_completed, hpaid, hm]
          rw [hh]
          exact hkeep
        · by_cases hf : found = true
          · rcases hbr : m.brushstrokes with e | b
            · have hh : (LedgerOp.purchase ps (some m) found fetch).apply tiers s = s := by
                simp [LedgerOp.apply, handle_checkout_completed, hpaid, hm, hf, hbr]
              rw [hh]
              exact hkeep
            · by_cases hble : b ≤ 0
              · have hh : (LedgerOp.purchase ps (some m) found fetch).apply tiers s
                    = s := by
                  simp [LedgerOp.apply, handle_checkout_completed, hpaid, hm, hf, hbr,
                    hble]
                rw [hh]
                exact hkeep
              · have hh : (LedgerOp.purchase ps (some m) found fetch).apply tiers s =
                    { s with
                      user := s.user.add_purchased_brushstrokes b
                      transactions := s.transactions ++
                        [{ transaction_type := "purchase"
                           amount := b
                           balance_after := (s.user.add_purchased_brushstrokes
                             b).total_brushstrokes
                             (get_subscription_info tiers fetch
                               (s.user.add_purchased_brushstrokes b)).2
                           generation := none
                           description := s!"Purchased {b} brushstroke pack" }] } := by
                  simp [LedgerOp.apply, handle_checkout_completed, hpaid, hm, hf, hbr,
                    hble]
                rw [hh]
                have hsub1 : (s.user.add_purchased_brushstrokes
                    b).subscription.stripe_subscription_id = none := by
                  simpa [User.add_purchased_brushstrokes] using hsub
                refine ⟨hsub1, hused, ?_, ?_⟩
                · rw [replay_snoc]
                  simp only [User.add_purchased_brushstrokes]
                  omega
                · apply balancesOk_snoc_aux _ _ _ hok
                  rw [get_subscription_info_no_sub tiers fetch _ hsub1]
                  simp only [User.total_brushstrokes, User.add_purchased_brushstrokes]
                  omega
          · have hh : (LedgerOp.purchase ps (some m) found fetch).apply tiers s = s := by
              simp [LedgerOp.apply, handle_checkout_completed, hpaid, hm, hf]
            rw [hh]
            exact hkeep
    · have hh : (LedgerOp.purchase ps meta found fetch).apply tiers s = s := by
        simp [LedgerOp.apply, handle_checkout_completed, hpaid]
      rw [hh]
      exact hkeep
  | usage fetch n genId =>
    have hwfn : (0 : Int) ≤ n := hwf
    simp only [LedgerOp.apply, record_generation]
    rw [get_subscription_info_no_sub tiers fetch s.user hsub]
    split
    · exact hkeep
    · rename_i hge
      rcases huse : s.user.use_brushstrokes n 0 with _ | u1
      · exact hkeep
      · simp only [User.use_brushstrokes] at huse
        rw [if_neg (by simpa using hge)] at huse
        have hrem : max 0 ((0 : Int) - s.user.subscription.allowance_used_this_period)
            = 0 := by omega
        rw [hrem] at huse
        simp only [gt_iff_lt, lt_irrefl, if_false, sub_zero, add_zero] at huse
        injection huse with huse
        subst huse
        refine ⟨by simpa using hsub, by simpa using hused, ?_, ?_⟩
        · rw [replay_snoc]
          simp only
          split <;> omega
        · apply balancesOk_snoc_aux _ _ _ hok
          simp only [User.total_brushstrokes]
          simp only [User.total_brushstrokes] at hge
          split <;> omega

  | renewal fetch =>
    simp only [LedgerOp.apply, check_and_renew_subscription, hsub]
    exact ⟨trivial, hused, hrep, hok⟩
  | gift found a d =>
    simp only [LedgerOp.apply, gift_tokens]
    split
    · exact hkeep
    · refine ⟨hsub, hused, ?_, ?_⟩
      · rw [replay_snoc]
        simp only [User.add_purchased_brushstrokes]
        omega
      · apply balancesOk_snoc_aux _ _ _ hok
        simp only [User.add_purchased_brushstrokes]
        omega

/-- C8 (amended): for an account with no subscription, replaying the ledger
from account creation reproduces the cached balance after any sequence of
balance-affecting operations (pack purchase, usage debit with its
non-negative tariff, renewal reconciliation, admin grant), and every
transaction's recorded `balance_after` equals the running replayed balance
at the point it was appended.  (With a subscription the invariant fails —
allowance movements are never ledgered — see the counterexample.) -/
theorem ledger_replay_no_subscription (tiers : Tiers) (ops : List LedgerOp)
    (hwf : ∀ op ∈ ops, op.wf) :
    replayBalance (applyOps tiers ops
        ⟨⟨⟨none, none, 0⟩, 0⟩, [], [], []⟩).transactions =
      (applyOps tiers ops
        ⟨⟨⟨none, none, 0⟩, 0⟩, [], [], []⟩).user.purchased_brushstrokes
    ∧ (applyOps tiers ops
        ⟨⟨⟨none, none, 0⟩, 0⟩, [], [], []⟩).user.total_brushstrokes 0 =
      (applyOps tiers ops
        ⟨⟨⟨none, none, 0⟩, 0⟩, [], [], []⟩).user.purchased_brushstrokes
    ∧ balancesOk 0 (applyOps tiers ops
        ⟨⟨⟨none, none, 0⟩, 0⟩, [], [], []⟩).transactions = true := by
  have main : ∀ (ops1 : List LedgerOp) (s : AppState), (∀ op ∈ ops1, op.wf) →
      s.user.subscription.stripe_subscription_id = none →
      0 ≤ s.user.subscription.allowance_used_this_period →
      replayBalance s.transactions = s.user.purchased_brushstrokes →
      balancesOk 0 s.transactions = true →
      (applyOps tiers ops1 s).user.subscription.stripe_subscription_id = none
      ∧ 0 ≤ (applyOps tiers ops1 s).user.subscription.allowance_used_this_period
      ∧ replayBalance (applyOps tiers ops1 s).transactions =
          (applyOps tiers ops1 s).user.purchased_brushstrokes
      ∧ balancesOk 0 (applyOps tiers ops1 s).transactions = true := by
    intro ops1
    induction ops1 with
    | nil =>
      intro s _ h1 h2 h3 h4
      exact ⟨h1, h2, h3, h4⟩
    | cons op rest ih =>
      intro s hwf1 h1 h2 h3 h4
      have hstep := ledger_step tiers op s (hwf1 op (by simp)) h1 h2 h3 h4
      simp only [applyOps, List.foldl_cons]
      exact ih (LedgerOp.apply tiers s op)
        (fun o ho => hwf1 o (List.mem_cons_of_mem op ho))
        hstep.1 hstep.2.1 hstep.2.2.1 hstep.2.2.2
  obtain ⟨m1, m2, m3, m4⟩ := main ops ⟨⟨⟨none, none, 0⟩, 0⟩, [], [], []⟩ hwf rfl
    (le_refl 0) rfl rfl
  refine ⟨m3, ?_, m4⟩
  simp only [User.total_brushstrokes]
  omega

/-- C8 witness: the amended invariant evaluated over a concrete history —
an admin gift of 10 followed by a usage debit of 3 — whose final state is
computed explicitly: purchased balance 7, ledger
[admin_grant +10 (balance 10), usage −3 (balance 7)]. -/
theorem ledger_replay_no_subscription_witness :
    (replayBalance (applyOps subscription_tiers
        [LedgerOp.gift true 10 "gift", LedgerOp.usage (.error ()) 3 none]
        ⟨⟨⟨none, none, 0⟩, 0⟩, [], [], []⟩).transactions =
      (applyOps subscription_tiers
        [LedgerOp.gift true 10 "gift", LedgerOp.usage (.error ()) 3 none]
        ⟨⟨⟨none, none, 0⟩, 0⟩, [], [], []⟩).user.purchased_brushstrokes)
    ∧ applyOps subscription_tiers
        [LedgerOp.gift true 10 "gift", LedgerOp.usage (.error ()) 3 none]
        ⟨⟨⟨none, none, 0⟩, 0⟩, [], [], []⟩ =
      ⟨⟨⟨none, none, 0⟩, 7⟩,
       [⟨"admin_grant", 10, 10, none, "gift"⟩,
        ⟨"usage", -3, 7, none, "Image generation (3 brushstrokes)"⟩], [], []⟩ :=
  ⟨(ledger_replay_no_subscription subscription_tiers
      [LedgerOp.gift true 10 "gift", LedgerOp.usage (.error ()) 3 none]
      (by
        intro op hop
        simp only [List.mem_cons, List.not_mem_nil, or_false] at hop
        rcases hop with rfl | rfl
        · trivial
        · exact (by norm_num : (0 : Int) ≤ 3))).1,
   rfl⟩

/-- C8 counterexample: for a subscribed account (basic tier, allowance 250)
a single usage debit of 3 produces a ledger whose replay gives −3, while
the cached balance is 247 — the ledger does not record allowance grants, so
replaying it does not reproduce the cached balance. -/
theorem ledger_replay_mismatch :
    applyOps subscription_tiers [LedgerOp.usage (.ok subBasic) 3 none]
      ⟨⟨⟨some "sub_1", some 0, 0⟩, 0⟩, [], [], []⟩ =
      ⟨⟨⟨some "sub_1", some 0, 3⟩, 0⟩,
       [⟨"usage", -3, 247, none, "Image generation (3 brushstrokes)"⟩], [], []⟩
    ∧ replayBalance [⟨"usage", -3, 247, none, "Image generation (3 brushstrokes)"⟩]
        = -3
    ∧ (⟨⟨some "sub_1", some 0, 3⟩, 0⟩ : User).total_brushstrokes 250 = 247
    ∧ ((-3 : Int) ≠ 247) :=
  ⟨rfl, rfl, rfl, by decide⟩

theorem insertDesc_perm (g : Gen) : ∀ (l : List Gen), List.Perm (insertDesc g l) (g :: l)
  | [] => List.Perm.refl _
  | h :: t => by
    simp only [insertDesc]
    split
    · exact List.Perm.refl _
    · exact ((insertDesc_perm g t).cons h).trans (List.Perm.swap g h t)

theorem sortDesc_perm : ∀ (l : List Gen), List.Perm (sortDesc l) l
  | [] => List.Perm.refl _
  | x :: t => by
    simp only [sortDesc]
    exact (insertDesc_perm x (sortDesc t)).trans ((sortDesc_perm t).cons x)

theorem insertDesc_pairwise (g : Gen) : ∀ (l : List Gen),
    l.Pairwise (fun a b => b.created_at ≤ a.created_at) →
    (insertDesc g l).Pairwise (fun a b => b.created_at ≤ a.created_at)
  | [], _ => by simp [insertDesc]
  | h :: t, hp => by
    simp only [insertDesc]
    rw [List.pairwise_cons] at hp
    obtain ⟨hht, hpt⟩ := hp
    split
    · rename_i hle
      rw [List.pairwise_cons]
      refine ⟨?_, ?_⟩
      · intro b hb
        rcases List.mem_cons.mp hb with hb | hb
        · rw [hb]
          exact hle
        · exact le_trans (hht b hb) hle
      · rw [List.pairwise_cons]
        exact ⟨hht, hpt⟩
    · rename_i hgt
      rw [List.pairwise_cons]
      refine ⟨?_, insertDesc_pairwise g t hpt⟩
      intro b hb
      have hb2 : b = g ∨ b ∈ t := by
        simpa using (insertDesc_perm g t).mem_iff.mp hb
      rcases hb2 with hb2 | hb2
      · rw [hb2]
        omega
      · exact hht b hb2

/-- `sortDesc` really sorts newest-first. -/
theorem sortDesc_pairwise : ∀ (l : List Gen),
    (sortDesc l).Pairwise (fun a b => b.created_at ≤ a.created_at)
  | [] => List.Pairwise.nil
  | x :: t => by
    simp only [sortDesc]
    exact insertDesc_pairwise x (sortDesc t) (sortDesc_pairwise t)

theorem nat_contains_iff (l : List Nat) (a : Nat) : l.contains a = true ↔ a ∈ l := by
  simp [List.contains]

/-- The archive-store guarantee of `enforce_image_limit`: at most the cap
remains `completed`-with-payload, records are only payload-cleared (never
deleted, metadata retained), and eviction is oldest-first. -/
theorem enforce_spec (t : AppState)
    (hids : (t.generations.map Gen.id).Nodup)
    (hct : ((t.generations.filter Gen.completedWithImage).map Gen.created_at).Nodup) :
    ((enforce_image_limit t).generations.filter Gen.completedWithImage).length =
      min (t.generations.filter Gen.completedWithImage).length MAX_IMAGES_PER_USER
    ∧ (enforce_image_limit t).generations.length = t.generations.length
    ∧ (∀ g2 ∈ (enforce_image_limit t).generations, ∃ g1,
        g1 ∈ t.generations ∧ g2.id = g1.id ∧ g2.status = g1.status
        ∧ g2.created_at = g1.created_at ∧ g2.brushstrokes_used = g1.brushstrokes_used
        ∧ (g2.image_data = g1.image_data
           ∨ (g2.image_data = none ∧ Gen.completedWithImage g1 = true)))
    ∧ (∀ g h, g ∈ t.generations → h ∈ t.generations →
        Gen.completedWithImage g = true →
        (∃ g2 ∈ (enforce_image_limit t).generations,
          g2.id = g.id ∧ g2.image_data = none) →
        (∃ h2 ∈ (enforce_image_limit t).generations,
          h2.id = h.id ∧ Gen.completedWithImage h2 = true) →
        g.created_at < h.created_at) := by
  have hinj := List.inj_on_of_nodup_map hids
  have hinjc := List.inj_on_of_nodup_map hct
  by_cases hcase : (sortDesc (t.generations.filter Gen.completedWithImage)).length ≤
      MAX_IMAGES_PER_USER
  · have hE : enforce_image_limit t = t := by
      simp only [enforce_image_limit]
      rw [if_pos hcase]
    rw [hE]
    have hlen : (sortDesc (t.generations.filter Gen.completedWithImage)).length =
        (t.generations.filter Gen.completedWithImage).length :=
      (sortDesc_perm _).length_eq
    refine ⟨by omega, rfl, ?_, ?_⟩
    · intro g2 hg2
      exact ⟨g2, hg2, rfl, rfl, rfl, rfl, Or.inl rfl⟩
    · rintro g h hg hh hcwig ⟨g2, hg2mem, hg2id, hg2none⟩ -
      have hg2g : g2 = g := hinj hg2mem hg hg2id
      rw [hg2g] at hg2none
      simp only [Gen.completedWithImage, Bool.and_eq_true, decide_eq_true_eq] at hcwig
      rw [hg2none] at hcwig
      simp at hcwig
  · have hE : enforce_image_limit t =
        { t with generations := t.generations.map (fun g =>
            if (((sortDesc (t.generations.filter Gen.completedWithImage)).drop
                MAX_IMAGES_PER_USER).map Gen.id).contains g.id then
              { g with image_data := none } else g) } := by
      simp only [enforce_image_limit]
      rw [if_neg hcase]
    rw [hE]
    have hperm : List.Perm (sortDesc (t.generations.filter Gen.completedWithImage))
        (t.generations.filter Gen.completedWithImage) := sortDesc_perm _
    have hpair := sortDesc_pairwise (t.generations.filter Gen.completedWithImage)
    have hsplit := List.take_append_drop MAX_IMAGES_PER_USER
      (sortDesc (t.generations.filter Gen.completedWithImage))
    have hcompsub : List.Sublist
        ((t.generations.filter Gen.completedWithImage).map Gen.id)
        (t.generations.map Gen.id) := (List.filter_sublist _).map Gen.id
    have hcompids : ((t.generations.filter Gen.completedWithImage).map Gen.id).Nodup :=
      List.Nodup.sublist hcompsub hids
    have hsortedids :
        ((sortDesc (t.generations.filter Gen.completedWithImage)).map Gen.id).Nodup :=
      ((hperm.map Gen.id).nodup_iff).mpr hcompids
    -- membership helpers for the dropped part
    have hdropped_sub : ∀ d ∈ (sortDesc
        (t.generations.filter Gen.completedWithImage)).drop MAX_IMAGES_PER_USER,
        d ∈ t.generations.filter Gen.completedWithImage := by
      intro d hd
      exact hperm.mem_iff.mp (List.mem_of_mem_drop hd)
    have hkeep_sub : ∀ k ∈ (sortDesc
        (t.generations.filter Gen.completedWithImage)).take MAX_IMAGES_PER_USER,
        k ∈ t.generations.filter Gen.completedWithImage := by
      intro k hk
      exact hperm.mem_iff.mp (List.mem_of_mem_take hk)
    -- the id of a dropped record is never the id of a kept record
    have hdisj : ∀ k ∈ (sortDesc
          (t.generations.filter Gen.completedWithImage)).take MAX_IMAGES_PER_USER,
        ∀ d ∈ (sortDesc
          (t.generations.filter Gen.completedWithImage)).drop MAX_IMAGES_PER_USER,
        k.id ≠ d.id := by
      intro k hk d hd heq
      rw [← hsplit, List.map_append] at hsortedids
      obtain ⟨-, -, hdis⟩ := List.nodup_append.mp hsortedids
      exact hdis (List.mem_map_of_mem Gen.id hk) (heq ▸ List.mem_map_of_mem Gen.id hd)
    -- a generation whose id is contained in the dropped ids is itself dropped
    have hcontained : ∀ g ∈ t.generations,
        ((((sortDesc (t.generations.filter Gen.completedWithImage)).drop
            MAX_IMAGES_PER_USER).map Gen.id).contains g.id = true) →
        g ∈ (sortDesc (t.generations.filter Gen.completedWithImage)).drop
          MAX_IMAGES_PER_USER := by
      intro g hg hc
      obtain ⟨d, hd, hdid⟩ := List.mem_map.mp ((nat_contains_iff _ _).mp hc)
      have hdg : d = g :=
        hinj (List.mem_of_mem_filter (hdropped_sub d hd)) hg hdid
      rw [← hdg]
      exact hd
    -- pointwise effect of the clearing map on the completed flag
    have hpt : ∀ g : Gen, Gen.completedWithImage
        (if (((sortDesc (t.generations.filter Gen.completedWithImage)).drop
            MAX_IMAGES_PER_USER).map Gen.id).contains g.id then
          { g with image_data := none } else g) =
        (!(((sortDesc (t.generations.filter Gen.completedWithImage)).drop
            MAX_IMAGES_PER_USER).map Gen.id).contains g.id
          && Gen.completedWithImage g) := by
      intro g
      by_cases hc : (((sortDesc (t.generations.filter Gen.completedWithImage)).drop
          MAX_IMAGES_PER_USER).map Gen.id).contains g.id = true
      · rw [if_pos hc, hc]
        simp [Gen.completedWithImage]
      · rw [Bool.not_eq_true] at hc
        rw [hc]
        simp
    refine ⟨?_, by simp, ?_, ?_⟩
    · -- exactly CAP completed records remain
      rw [← List.countP_eq_length_filter, List.countP_map]
      rw [List.countP_congr (fun g _ => by
        rw [Function.comp_apply, hpt g])]
      rw [← List.countP_filter]
      rw [(hperm.symm).countP_eq]
      nth_rewrite 2 [← hsplit]
      rw [List.countP_append]
      have hkeepcount : List.countP (fun g =>
          !(((sortDesc (t.generations.filter Gen.completedWithImage)).drop
            MAX_IMAGES_PER_USER).map Gen.id).contains g.id)
          ((sortDesc (t.generations.filter Gen.completedWithImage)).take
            MAX_IMAGES_PER_USER) =
          ((sortDesc (t.generations.filter Gen.completedWithImage)).take
            MAX_IMAGES_PER_USER).length := by
        rw [List.countP_eq_length]
        intro k hk
        rw [Bool.not_eq_eq_eq_not, Bool.not_true]
        by_contra hc
        have hc2 : (((sortDesc (t.generations.filter Gen.completedWithImage)).drop
            MAX_IMAGES_PER_USER).map Gen.id).contains k.id = true := by
          revert hc
          cases (((sortDesc (t.generations.filter Gen.completedWithImage)).drop
              MAX_IMAGES_PER_USER).map Gen.id).contains k.id <;> simp
        obtain ⟨d, hd, hdid⟩ := List.mem_map.mp ((nat_contains_iff _ _).mp hc2)
        exact hdisj k hk d hd hdid.symm
      have hdropcount : List.countP (fun g =>
          !(((sortDesc (t.generations.filter Gen.completedWithImage)).drop
            MAX_IMAGES_PER_USER).map Gen.id).contains g.id)
          ((sortDesc (t.generations.filter Gen.completedWithImage)).drop
            MAX_IMAGES_PER_USER) = 0 := by
        rw [List.countP_eq_zero]
        intro d hd
        have hcontr : (((sortDesc (t.generations.filter Gen.completedWithImage)).drop
            MAX_IMAGES_PER_USER).map Gen.id).contains d.id = true :=
          (nat_contains_iff _ _).mpr (List.mem_map_of_mem Gen.id hd)
        rw [hcontr]
        simp
      rw [hkeepcount, hdropcount, List.length_take]
      have hlen : (sortDesc (t.generations.filter Gen.completedWithImage)).length =
          (t.generations.filter Gen.completedWithImage).length :=
        hperm.length_eq
      omega
    · -- metadata retention
      intro g2 hg2
      obtain ⟨g1, hg1, hfg⟩ := List.mem_map.mp hg2
      refine ⟨g1, hg1, ?_⟩
      by_cases hc : (((sortDesc (t.generations.filter Gen.completedWithImage)).drop
          MAX_IMAGES_PER_USER).map Gen.id).contains g1.id = true
      · rw [if_pos hc] at hfg
        have hdrop := hcontained g1 hg1 hc
        have hcwi : Gen.completedWithImage g1 = true :=
          List.of_mem_filter (hdropped_sub g1 hdrop)
        rw [← hfg]
        exact ⟨rfl, rfl, rfl, rfl, Or.inr ⟨rfl, hcwi⟩⟩
      · rw [if_neg hc] at hfg
        rw [← hfg]
        exact ⟨rfl, rfl, rfl, rfl, Or.inl rfl⟩
    · -- oldest-first eviction
      rintro g h hg hh hcwig ⟨g2, hg2mem, hg2id, hg2none⟩ ⟨h2, hh2mem, hh2id, hh2cwi⟩
      obtain ⟨g1, hg1, hfg⟩ := List.mem_map.mp hg2mem
      obtain ⟨h1, hh1, hfh⟩ := List.mem_map.mp hh2mem
      -- the clearing map preserves ids
      have hg2id1 : g2.id = g1.id := by
        rw [← hfg]
        split <;> rfl
      have hh2id1 : h2.id = h1.id := by
        rw [← hfh]
        split <;> rfl
      have hg1g : g1 = g := hinj hg1 hg (by rw [← hg2id1, hg2id])
      have hh1h : h1 = h := hinj hh1 hh (by rw [← hh2id1, hh2id])
      subst hg1g
      subst hh1h
      -- g was dropped: otherwise its payload would still be present
      have hgdrop : g1 ∈ (sortDesc (t.generations.filter Gen.completedWithImage)).drop
          MAX_IMAGES_PER_USER := by
        by_cases hc : (((sortDesc (t.generations.filter Gen.completedWithImage)).drop
            MAX_IMAGES_PER_USER).map Gen.id).contains g1.id = true
        · exact hcontained g1 hg1 hc
        · exfalso
          rw [if_neg hc] at hfg
          rw [← hfg] at hg2none
          simp only [Gen.completedWithImage, Bool.and_eq_true, decide_eq_true_eq]
            at hcwig
          rw [hg2none] at hcwig
          simp at hcwig
      -- h was kept: its payload is present after enforcement
      have hhcont : (((sortDesc (t.generations.filter Gen.completedWithImage)).drop
          MAX_IMAGES_PER_USER).map Gen.id).contains h1.id = false := by
        by_contra hc
        have hc2 : (((sortDesc (t.generations.filter Gen.completedWithImage)).drop
            MAX_IMAGES_PER_USER).map Gen.id).contains h1.id = true := by
          revert hc
          cases (((sortDesc (t.generations.filter Gen.completedWithImage)).drop
              MAX_IMAGES_PER_USER).map Gen.id).contains h1.id <;> simp
        rw [if_pos hc2] at hfh
        rw [← hfh] at hh2cwi
        simp [Gen.completedWithImage] at hh2cwi
      have hhcwi : Gen.completedWithImage h1 = true := by
        rw [if_neg (show ¬ (((sortDesc (t.generations.filter
            Gen.completedWithImage)).drop MAX_IMAGES_PER_USER).map
            Gen.id).contains h1.id = true from by
          rw [hhcont]
          exact Bool.false_ne_true)] at hfh
        rw [hfh]
        exact hh2cwi
      have hhsorted : h1 ∈ sortDesc (t.generations.filter Gen.completedWithImage) :=
        hperm.mem_iff.mpr (List.mem_filter.mpr ⟨hh, hhcwi⟩)
      have hhkeep : h1 ∈ (sortDesc (t.generations.filter Gen.completedWithImage)).take
          MAX_IMAGES_PER_USER := by
        rw [← hsplit] at hhsorted
        rcases List.mem_append.mp hhsorted with hk | hd
        · exact hk
        · exfalso
          have hcontr : (((sortDesc (t.generations.filter Gen.completedWithImage)).drop
              MAX_IMAGES_PER_USER).map Gen.id).contains h1.id = true :=
            (nat_contains_iff _ _).mpr (List.mem_map_of_mem Gen.id hd)
          rw [hhcont] at hcontr
          exact Bool.false_ne_true hcontr
      -- sortedness across the take/drop split gives the ordering
      have hcross : g1.created_at ≤ h1.created_at := by
        rw [← hsplit] at hpair
        have := (List.pairwise_append.mp hpair).2.2
        exact this h1 hhkeep g1 hgdrop
      -- strictness from distinct created_at values among completed records
      have hne : g1 ≠ h1 := by
        intro heq
        have hcontr : (((sortDesc (t.generations.filter Gen.completedWithImage)).drop
            MAX_IMAGES_PER_USER).map Gen.id).contains h1.id = true :=
          (nat_contains_iff _ _).mpr (List.mem_map_of_mem Gen.id (heq ▸ hgdrop))
        rw [hhcont] at hcontr
        exact Bool.false_ne_true hcontr
      have hgc : g1 ∈ t.generations.filter Gen.completedWithImage :=
        hdropped_sub g1 hgdrop
      have hhc : h1 ∈ t.generations.filter Gen.completedWithImage :=
        List.mem_filter.mpr ⟨hh, hhcwi⟩
      have : g1.created_at ≠ h1.created_at := by
        intro heq
        exact hne (hinjc hgc hhc heq)
      omega

/-- C7: after any save into the archive (fresh id, distinct timestamps), at
most `MAX_IMAGES_PER_USER` artifacts remain completed-with-payload — exactly
the cap when more than the cap have accumulated; the excess, chosen
oldest-first by `created_at`, have their payload cleared with metadata (id,
status, created_at, cost) retained, and no record is ever deleted.  The
spec's `completed`/`evicted` artifact states correspond to
`status = "completed"` with payload present/cleared: the source keeps the
status field and clears `image_data` only. -/
theorem archive_cap_enforced (s : AppState) (gid : Nat) (now : Int)
    (img : List Nat) (cost : Int)
    (hids : ((s.generations ++ [mkGeneration gid now img cost]).map Gen.id).Nodup)
    (hct : (((s.generations ++ [mkGeneration gid now img cost]).filter
      Gen.completedWithImage).map Gen.created_at).Nodup) :
    ((save_generation_with_image gid now img cost s).1.generations.filter
        Gen.completedWithImage).length =
      min ((s.generations.filter Gen.completedWithImage).length + 1)
        MAX_IMAGES_PER_USER
    ∧ (save_generation_with_image gid now img cost s).1.generations.length =
        s.generations.length + 1
    ∧ (∀ g2 ∈ (save_generation_with_image gid now img cost s).1.generations, ∃ g1,
        g1 ∈ s.generations ++ [mkGeneration gid now img cost] ∧ g2.id = g1.id
        ∧ g2.status = g1.status ∧ g2.created_at = g1.created_at
        ∧ g2.brushstrokes_used = g1.brushstrokes_used
        ∧ (g2.image_data = g1.image_data
           ∨ (g2.image_data = none ∧ Gen.completedWithImage g1 = true)))
    ∧ (∀ g h, g ∈ s.generations ++ [mkGeneration gid now img cost] →
        h ∈ s.generations ++ [mkGeneration gid now img cost] →
        Gen.completedWithImage g = true →
        (∃ g2 ∈ (save_generation_with_image gid now img cost s).1.generations,
          g2.id = g.id ∧ g2.image_data = none) →
        (∃ h2 ∈ (save_generation_with_image gid now img cost s).1.generations,
          h2.id = h.id ∧ Gen.completedWithImage h2 = true) →
        g.created_at < h.created_at) := by
  obtain ⟨h1, h2, h3, h4⟩ := enforce_spec
    { s with generations := s.generations ++ [mkGeneration gid now img cost] }
    hids hct
  have hplus : (((s.generations ++ [mkGeneration gid now img cost]).filter
      Gen.completedWithImage)).length =
      (s.generations.filter Gen.completedWithImage).length + 1 := by
    rw [List.filter_append]
    simp [mkGeneration, Gen.completedWithImage]
  refine ⟨?_, ?_, h3, h4⟩
  · rw [← hplus]
    exact h1
  · rw [show (s.generations ++ [mkGeneration gid now img cost]).length =
      s.generations.length + 1 from by simp] at h2
    exact h2

/-- C7 witness: the theorem applied to an archive already holding 101
completed artifacts (timestamps 0..100) when artifact 200 is saved at time
200 — exactly 100 remain completed-with-payload, and the record count grows
to 102. -/
theorem archive_cap_enforced_witness :
    ((save_generation_with_image 200 200 [0] 1
        ⟨⟨⟨none, none, 0⟩, 0⟩, [], (List.range 101).map
          (fun i => ⟨i, (i : Int), "completed", some [0], 1⟩), []⟩).1.generations.filter
        Gen.completedWithImage).length =
      min ((((List.range 101).map
          (fun i => (⟨i, (i : Int), "completed", some [0], 1⟩ : Gen))).filter
          Gen.completedWithImage).length + 1) MAX_IMAGES_PER_USER
    ∧ min ((((List.range 101).map
          (fun i => (⟨i, (i : Int), "completed", some [0], 1⟩ : Gen))).filter
          Gen.completedWithImage).length + 1) MAX_IMAGES_PER_USER = 100
    ∧ (save_generation_with_image 200 200 [0] 1
        ⟨⟨⟨none, none, 0⟩, 0⟩, [], (List.range 101).map
          (fun i => ⟨i, (i : Int), "completed", some [0], 1⟩), []⟩).1.generations.length =
      ((List.range 101).map
        (fun i => (⟨i, (i : Int), "completed", some [0], 1⟩ : Gen))).length + 1 :=
  ⟨(archive_cap_enforced
      ⟨⟨⟨none, none, 0⟩, 0⟩, [], (List.range 101).map
        (fun i => ⟨i, (i : Int), "completed", some [0], 1⟩), []⟩ 200 200 [0] 1
      (by decide) (by decide)).1,
   by decide,
   (archive_cap_enforced
      ⟨⟨⟨none, none, 0⟩, 0⟩, [], (List.range 101).map
        (fun i => ⟨i, (i : Int), "completed", some [0], 1⟩), []⟩ 200 200 [0] 1
      (by decide) (by decide)).2.1⟩

end Quickbrush
